import Mathlib

/-!
# Verification of the Data-Transformation-Excel orchestration core

This file is a shallow embedding, in Lean 4, of the transformation
orchestration core of the Data-Transformation-Excel repository:

* the Function Registry (`src/src/engine/function_registry.py`),
* the Execution Engine (`src/src/engine/execution_engine.py`),
* the Table Matcher (`src/src/agents/table_matching_agent.py`),
* the Orchestrator job state machine (`src/src/agents/orchestrator.py`).

External collaborators of the source (the `re` module applied to run-time
patterns, `datetime.strptime`, `pandas.to_datetime`, the `phonenumbers`
library, `difflib.SequenceMatcher`) are modelled as an explicit record of
interface functions (`Ext`), mirroring the spec's treatment of them as
opaque collaborators.  Fixed, compile-time regular expressions appearing
in the source are compiled by hand into decidable Lean predicates.

Machine floats of the source are modelled as rationals (`ℚ`); every value
the claims evaluate is a finite decimal, where this model is exact.
Python cell values (`None` / `NaN` / `str` / numbers / `datetime` /
dictionaries) are modelled by the inductive types `Val` and `RVal`.
-/

namespace DTE

instance {α β : Type} [DecidableEq α] [DecidableEq β] : DecidableEq (Except α β) :=
  fun x y =>
    match x, y with
    | .ok a, .ok b =>
      if h : a = b then .isTrue (by rw [h]) else .isFalse (by simp [h])
    | .error a, .error b =>
      if h : a = b then .isTrue (by rw [h]) else .isFalse (by simp [h])
    | .ok _, .error _ => .isFalse (by simp)
    | .error _, .ok _ => .isFalse (by simp)

/-! ## Python string primitives

The source manipulates `str` values through `strip`, `upper`, `lower`,
`title`, `split`, `replace`, `in`, slicing and `join`.  These are
re-implemented here over `List Char` with structural recursion, so that
every definition evaluates by kernel reduction. -/

/-- Python's default `str.strip` whitespace (ASCII fragment). -/
def wsChar (c : Char) : Bool :=
  c = ' ' || c = '\t' || c = '\n' || c = '\r' || c = '\x0b' || c = '\x0c'

/-- `str.strip()`. -/
def pyTrim (s : String) : String :=
  ⟨((s.data.dropWhile wsChar).reverse.dropWhile wsChar).reverse⟩

/-- ASCII `str.upper()`. -/
def pyUpperChar (c : Char) : Char :=
  if 'a' ≤ c ∧ c ≤ 'z' then Char.ofNat (c.toNat - 32) else c

/-- ASCII `str.lower()`. -/
def pyLowerChar (c : Char) : Char :=
  if 'A' ≤ c ∧ c ≤ 'Z' then Char.ofNat (c.toNat + 32) else c

def pyUpper (s : String) : String := ⟨s.data.map pyUpperChar⟩

def pyLower (s : String) : String := ⟨s.data.map pyLowerChar⟩

def pyLen (s : String) : Nat := s.data.length

/-- Does the list start with the pattern? -/
def startsWithL : List Char → List Char → Bool
  | _, [] => true
  | [], _ :: _ => false
  | c :: cs, p :: ps => c = p && startsWithL cs ps

def pyStartsWith (s p : String) : Bool := startsWithL s.data p.data

def pyEndsWith (s p : String) : Bool := startsWithL s.data.reverse p.data.reverse

def pyContainsChar (s : String) (c : Char) : Bool := s.data.any (fun d => d = c)

/-- `s[n:]`. -/
def pyDrop (s : String) (n : Nat) : String := ⟨s.data.drop n⟩

/-- `s[:-n]` (drop from the right). -/
def pyDropRight (s : String) (n : Nat) : String := ⟨(s.data.reverse.drop n).reverse⟩

/-- `s[:n]`. -/
def pyTake (s : String) (n : Nat) : String := ⟨s.data.take n⟩

/-- `str.split(sep)` with a non-empty separator, fuel-structured so that
it evaluates by kernel reduction. -/
def splitOnLAux (sep : List Char) : Nat → List Char → List (List Char)
  | _, [] => [[]]
  | 0, cs => [cs]
  | Nat.succ fuel, c :: cs =>
    if sep ≠ [] ∧ startsWithL (c :: cs) sep then
      [] :: splitOnLAux sep fuel (cs.drop (sep.length - 1))
    else
      match splitOnLAux sep fuel cs with
      | r :: rs => (c :: r) :: rs
      | [] => [[c]]

def pySplit (s sep : String) : List String :=
  if sep = "" then [s]
  else (splitOnLAux sep.data (s.data.length + 1) s.data).map (fun l => (⟨l⟩ : String))

/-- `str.replace(pat, rep)` (all non-overlapping occurrences, left to
right), fuel-structured. -/
def replaceLAux (pat rep : List Char) : Nat → List Char → List Char
  | _, [] => []
  | 0, cs => cs
  | Nat.succ fuel, c :: cs =>
    if pat ≠ [] ∧ startsWithL (c :: cs) pat then
      rep ++ replaceLAux pat rep fuel (cs.drop (pat.length - 1))
    else
      c :: replaceLAux pat rep fuel cs

def pyReplace (s pat rep : String) : String :=
  if pat = "" then s
  else ⟨replaceLAux pat.data rep.data (s.data.length + 1) s.data⟩

/-- `sep.join(parts)`. -/
def pyJoin (sep : String) : List String → String
  | [] => ""
  | [p] => p
  | p :: q :: rest => ⟨p.data ++ sep.data ++ (pyJoin sep (q :: rest)).data⟩

/-- A scalar Python cell value as the engine and registry see it. -/
inductive Val where
  | none
  | nan
  | str (s : String)
  | int (n : Int)
  | float (q : ℚ)
  | bool (b : Bool)
  | date (ord : Int)
deriving Repr, DecidableEq

/-- A registry-function result: a scalar, or a Python dict of named
sub-results (as returned by the name splitter, the validators and the
pincode lookup). -/
inductive RVal where
  | scalar (v : Val)
  | rdict (entries : List (String × Val))
deriving Repr, DecidableEq

/-- `pd.isna(value) or value is None` on a cell: true exactly for
`None` and float `NaN` (`pd.isna` of a str/number/dict is false). -/
def pyIsNA : RVal → Bool
  | .scalar .none => true
  | .scalar .nan => true
  | _ => false

/-- A rendering of a rational, standing for CPython `repr(float)`.
No claim evaluates it on a non-trivial number. -/
def pyFloatRepr (q : ℚ) : String := toString q

/-- CPython `str(value)` on the modelled cell values. -/
def pyStr : RVal → String
  | .scalar .none => "None"
  | .scalar .nan => "nan"
  | .scalar (.str s) => s
  | .scalar (.int n) => toString n
  | .scalar (.float q) => pyFloatRepr q
  | .scalar (.bool true) => "True"
  | .scalar (.bool false) => "False"
  | .scalar (.date d) => "datetime(" ++ toString d ++ ")"
  | .rdict _ => "<dict>"

/-- Digits to a natural number, `foldl`-style as Python's int parsing. -/
def digitsToNat (cs : List Char) : Nat :=
  cs.foldl (fun a c => a * 10 + (c.toNat - 48)) 0

/-- The parsing phase of CPython `float(s)` on decimal literals: optional
surrounding whitespace, an optional sign, a mantissa made of digits with
at most one decimal point (at least one digit overall), and an optional
exponent.  Result: (negative, integer digits, fraction digits, fraction
length, exponent).  `inf`/`nan` and PEP-515 underscores are outside the
rational model and parse to `none`; no claim evaluates them. -/
def pyFloatParts (s : String) : Option (Bool × Nat × Nat × Nat × Int) :=
  let cs0 := (pyTrim s).data.map pyLowerChar
  let signAndRest : Bool × List Char :=
    match cs0 with
    | '-' :: rest => (true, rest)
    | '+' :: rest => (false, rest)
    | _ => (false, cs0)
  let neg := signAndRest.1
  let cs := signAndRest.2
  let mantAndExp : List Char × Option (List Char) :=
    match cs.findIdx? (fun c => c = 'e') with
    | Option.some i => (cs.take i, Option.some (cs.drop (i + 1)))
    | Option.none => (cs, Option.none)
  let mant := mantAndExp.1
  let ipfp : List Char × List Char :=
    match mant.findIdx? (fun c => c = '.') with
    | Option.some i => (mant.take i, mant.drop (i + 1))
    | Option.none => (mant, [])
  let ip := ipfp.1
  let fp := ipfp.2
  let expVal : Option Int :=
    match mantAndExp.2 with
    | Option.none => Option.some 0
    | Option.some ecs =>
      let esAndRest : Int × List Char :=
        match ecs with
        | '-' :: r => (-1, r)
        | '+' :: r => (1, r)
        | _ => (1, ecs)
      if esAndRest.2 ≠ [] ∧ esAndRest.2.all Char.isDigit then
        Option.some (esAndRest.1 * (digitsToNat esAndRest.2 : Int))
      else Option.none
  if ip.all Char.isDigit ∧ fp.all Char.isDigit ∧ (ip ≠ [] ∨ fp ≠ []) then
    match expVal with
    | Option.some e => Option.some (neg, digitsToNat ip, digitsToNat fp, fp.length, e)
    | Option.none => Option.none
  else Option.none

/-- The rational value of a parsed decimal literal. -/
def partsToRat (p : Bool × Nat × Nat × Nat × Int) : ℚ :=
  (if p.1 then (-1 : ℚ) else 1) * ((p.2.1 : ℚ) + (p.2.2.1 : ℚ) / 10 ^ p.2.2.2.1)
    * (10 : ℚ) ^ p.2.2.2.2

/-- CPython `float(s)` on decimal literals. -/
def pyFloat (s : String) : Option ℚ := (pyFloatParts s).map partsToRat

/-- Python `str.title()` (ASCII fragment): a letter is upper-cased after
a non-letter, lower-cased after a letter. -/
def pyTitleAux : List Char → Bool → List Char
  | [], _ => []
  | c :: cs, prevAlpha =>
    let c' := if c.isAlpha then (if prevAlpha then pyLowerChar c else pyUpperChar c) else c
    c' :: pyTitleAux cs c.isAlpha

def pyTitle (s : String) : String := ⟨pyTitleAux s.data false⟩

/-- `re.sub(r'\s+', ' ', s)`: collapse every run of whitespace to one
space. -/
def collapseWsAux : List Char → Bool → List Char
  | [], _ => []
  | c :: cs, prevWs =>
    if wsChar c then
      (if prevWs then collapseWsAux cs true else ' ' :: collapseWsAux cs true)
    else c :: collapseWsAux cs false

def collapseWs (s : String) : String := ⟨collapseWsAux s.data false⟩

/-- The keyword context the engine passes to registry functions:
`row=` (the full source row) and `values=` (ordered multi-column input). -/
structure Ctx where
  row : Option (List (String × RVal)) := Option.none
  values : Option (List RVal) := Option.none
deriving Repr, DecidableEq

/-- `TransformationParams` (pydantic model, `model_dump(exclude_none=True)`
plus `params.get(key, default)` is modelled by `Option.getD`). -/
structure Params where
  delimiter : Option String := Option.none
  culture : Option String := Option.none
  handle_single_name : Option String := Option.none
  pattern : Option String := Option.none
  group_index : Option Int := Option.none
  target_format : Option String := Option.none
  ambiguity_preference : Option String := Option.none
  currency_symbol : Option String := Option.none
  mapping_dict : Option (List (String × String)) := Option.none
  default : Option String := Option.none
  fallback_col : Option String := Option.none
  region : Option String := Option.none
  format : Option String := Option.none
  separator : Option String := Option.none
  date2_col : Option String := Option.none
deriving Repr, DecidableEq

/-- The external collaborators of the source, as an explicit interface
record: `datetime.strptime` / `pandas.to_datetime` (datetimes are day
ordinals), `strftime`, the `phonenumbers` library (parsed numbers are
opaque handles), `re.search` over run-time patterns, and
`difflib.SequenceMatcher.ratio` with its documented [0,1] range. -/
structure Ext where
  strptime : String → String → Option Int
  pdToDatetime : String → Bool → Option Int
  strftime : Int → String → String
  phoneParse : String → String → Option Nat
  phoneValid : Nat → Bool
  phoneFormatE164 : Nat → String
  phoneFormatNational : Nat → String
  phoneFormatInternational : Nat → String
  reSearch : String → String → Except Unit (Option (String × List (Option String)))
  seqRatio : String → String → ℚ
  seqRatio_nonneg : ∀ a b, 0 ≤ seqRatio a b
  seqRatio_le_one : ∀ a b, seqRatio a b ≤ 1

/-- A trivial instance of the external interface, used to evaluate the
model at concrete inputs. -/
def extDefault : Ext where
  strptime := fun _ _ => Option.none
  pdToDatetime := fun _ _ => Option.none
  strftime := fun _ _ => ""
  phoneParse := fun _ _ => Option.none
  phoneValid := fun _ => false
  phoneFormatE164 := fun _ => ""
  phoneFormatNational := fun _ => ""
  phoneFormatInternational := fun _ => ""
  reSearch := fun _ _ => .ok Option.none
  seqRatio := fun _ _ => 0
  seqRatio_nonneg := fun _ _ => le_refl 0
  seqRatio_le_one := fun _ _ => zero_le_one

/-! ## Function Registry (`src/src/engine/function_registry.py`) -/

/-- The `SPLIT_FULL_NAME` empty sentinel. -/
def splitNameEmpty : RVal :=
  .rdict [("first_name", .str ""), ("middle_name", .str ""), ("last_name", .str "")]

/-- `FunctionRegistry.split_full_name`. -/
def split_full_name (_ : Ext) (value : RVal) (params : Params) (_ : Ctx) : RVal :=
  if pyIsNA value then splitNameEmpty
  else
    let v := pyTrim (pyStr value)
    if v = "" then splitNameEmpty
    else
      let delimiter0 := params.delimiter.getD "auto"
      let culture := params.culture.getD "western"
      let handleSingle := params.handle_single_name.getD "first_name_only"
      let delimiter :=
        if delimiter0 = "auto" then (if pyContainsChar v ',' then "," else " ") else delimiter0
      let parts := ((pySplit v delimiter).map pyTrim).filter (fun p => p ≠ "")
      match parts with
      | [] => splitNameEmpty
      | [p] =>
        if handleSingle = "last_name_only" then
          .rdict [("first_name", .str ""), ("middle_name", .str ""), ("last_name", .str p)]
        else
          .rdict [("first_name", .str p), ("middle_name", .str ""), ("last_name", .str "")]
      | [p1, p2] =>
        if culture = "eastern" then
          .rdict [("first_name", .str p2), ("middle_name", .str ""), ("last_name", .str p1)]
        else
          .rdict [("first_name", .str p1), ("middle_name", .str ""), ("last_name", .str p2)]
      | p1 :: p2 :: p3 :: rest =>
        let mid := pyJoin " " ((p2 :: p3 :: rest).dropLast)
        let lastP := (p2 :: p3 :: rest).getLastD ""
        if culture = "eastern" then
          .rdict [("first_name", .str lastP), ("middle_name", .str mid), ("last_name", .str p1)]
        else
          .rdict [("first_name", .str p1), ("middle_name", .str mid), ("last_name", .str lastP)]

/-- `FunctionRegistry.regex_extract` (run-time patterns go through
`Ext.reSearch`; `re.error` is the `.error` case and yields `""`). -/
def regex_extract (ext : Ext) (value : RVal) (params : Params) (_ : Ctx) : RVal :=
  if pyIsNA value then .scalar (.str "")
  else
    let pat := params.pattern.getD ""
    let gi := params.group_index.getD 0
    if pat = "" then .scalar (.str (pyStr value))
    else
      match ext.reSearch pat (pyStr value) with
      | .error _ => .scalar (.str "")
      | .ok Option.none => .scalar (.str "")
      | .ok (Option.some m) =>
        if gi = 0 then .scalar (.str m.1)
        else if gi ≤ (m.2.length : Int) then
          match m.2.get? (gi - 1).toNat with
          | Option.some (Option.some s) => .scalar (.str s)
          | Option.some Option.none => .scalar .none
          | Option.none => .scalar (.str "")
        else .scalar (.str "")

/-- `FunctionRegistry.clean_whitespace`. -/
def clean_whitespace (_ : Ext) (value : RVal) (_ : Params) (_ : Ctx) : RVal :=
  if pyIsNA value then .scalar (.str "")
  else .scalar (.str (collapseWs (pyTrim (pyStr value))))

/-- `FunctionRegistry.uppercase`. -/
def uppercase (_ : Ext) (value : RVal) (_ : Params) (_ : Ctx) : RVal :=
  if pyIsNA value then .scalar (.str "")
  else .scalar (.str (pyUpper (pyStr value)))

/-- `FunctionRegistry.lowercase`. -/
def lowercase (_ : Ext) (value : RVal) (_ : Params) (_ : Ctx) : RVal :=
  if pyIsNA value then .scalar (.str "")
  else .scalar (.str (pyLower (pyStr value)))

/-- `FunctionRegistry.titlecase`. -/
def titlecase (_ : Ext) (value : RVal) (_ : Params) (_ : Ctx) : RVal :=
  if pyIsNA value then .scalar (.str "")
  else .scalar (.str (pyTitle (pyStr value)))

/-- `FunctionRegistry.trim`. -/
def trim (_ : Ext) (value : RVal) (_ : Params) (_ : Ctx) : RVal :=
  if pyIsNA value then .scalar (.str "")
  else .scalar (.str (pyTrim (pyStr value)))

/-- `FunctionRegistry.concatenate` (`value` is never a Python list in the
engine's calls; multi-column input arrives via `values=`). -/
def concatenate (_ : Ext) (value : RVal) (params : Params) (ctx : Ctx) : RVal :=
  let separator := params.separator.getD " "
  let values := ctx.values.getD [value]
  let strVals := values.filterMap
    (fun v => if pyIsNA v then Option.none else Option.some (pyTrim (pyStr v)))
  .scalar (.str (pyJoin separator strVals))

/-- `FunctionRegistry.smart_date_parse`, as the optional day ordinal it
computes (format lists exactly as in the source; each `strptime` attempt
and the `pandas` fallback go through `Ext`). -/
def smartDateParseD (ext : Ext) (value : RVal) (params : Params) : Option Int :=
  if pyIsNA value then Option.none
  else
    let vs := pyTrim (pyStr value)
    if vs = "" then Option.none
    else
      let pref := params.ambiguity_preference.getD "UK"
      let formats : List String :=
        if pref = "US" then
          ["%m/%d/%Y", "%m-%d-%Y", "%m/%d/%y",
           "%Y-%m-%d", "%Y/%m/%d",
           "%d %b %Y", "%d %B %Y",
           "%b %d, %Y", "%B %d, %Y"]
        else if pref = "ISO" then
          ["%Y-%m-%d", "%Y/%m/%d",
           "%d/%m/%Y", "%d-%m-%Y",
           "%d %b %Y", "%d %B %Y"]
        else
          ["%d/%m/%Y", "%d-%m-%Y", "%d/%m/%y",
           "%Y-%m-%d", "%Y/%m/%d",
           "%d %b %Y", "%d %B %Y",
           "%d-%b-%Y", "%d-%B-%Y"]
      match formats.findSome? (fun fmt => ext.strptime vs fmt) with
      | Option.some d => Option.some d
      | Option.none => ext.pdToDatetime vs (pref ≠ "US")

/-- `FunctionRegistry.smart_date_parse` as a registry function. -/
def smart_date_parse (ext : Ext) (value : RVal) (params : Params) (_ : Ctx) : RVal :=
  match smartDateParseD ext value params with
  | Option.some d => .scalar (.date d)
  | Option.none => .scalar .none

/-- `FunctionRegistry.format_date`. -/
def format_date (ext : Ext) (value : RVal) (params : Params) (_ : Ctx) : RVal :=
  let tf := params.target_format.getD "%Y-%m-%d"
  if pyIsNA value then .scalar (.str "")
  else
    match value with
    | .scalar (.date d) => .scalar (.str (ext.strftime d tf))
    | _ =>
      match smartDateParseD ext value params with
      | Option.some d => .scalar (.str (ext.strftime d tf))
      | Option.none => .scalar (.str (pyStr value))

/-- `FunctionRegistry.compute_date_diff` (`.days` of the difference is the
ordinal difference in the day-ordinal model). -/
def compute_date_diff (ext : Ext) (value : RVal) (params : Params) (ctx : Ctx) : RVal :=
  if pyIsNA value then .scalar .none
  else
    let row := ctx.row.getD []
    let date2_col := params.date2_col
    match smartDateParseD ext value params with
    | Option.none => .scalar .none
    | Option.some d1 =>
      let colMissing : Bool :=
        (date2_col.getD "" = "" : Bool) ||
          (match date2_col with
           | Option.some c => ! row.any (fun kv => kv.1 = c)
           | Option.none => true)
      let d2 : Option Int :=
        if colMissing then
          let vals := ctx.values.getD []
          if 2 ≤ vals.length then
            smartDateParseD ext (vals.getD 1 (.scalar .none)) params
          else Option.none
        else
          match date2_col with
          | Option.some c =>
            smartDateParseD ext (((row.find? (fun kv => kv.1 = c)).map Prod.snd).getD
              (.scalar .none)) params
          | Option.none => Option.none
      match d2 with
      | Option.none => .scalar .none
      | Option.some d2v => .scalar (.int (d1 - d2v))

/-- `FunctionRegistry.normalize_currency`.  The symbol list and the order
of the `str.replace` calls are exactly the source's. -/
def normalize_currency (_ : Ext) (value : RVal) (_ : Params) (_ : Ctx) : RVal :=
  if pyIsNA value then .scalar .none
  else
    let vs0 := pyTrim (pyStr value)
    if vs0 = "" then .scalar .none
    else
      let symbols := ["$", "€", "£", "¥", "₹", "Rs", "Rs.", "INR", "USD", "EUR"]
      let vs1 := symbols.foldl (fun acc sym => pyReplace acc sym "") vs0
      let vs2 := pyTrim (pyReplace (pyReplace vs1 "," "") " " "")
      let vs3 :=
        if pyStartsWith vs2 "(" ∧ pyEndsWith vs2 ")" then
          "-" ++ (pyDropRight (pyDrop vs2 1) 1)
        else vs2
      match pyFloat vs3 with
      | Option.some q => .scalar (.float q)
      | Option.none => .scalar .none

/-- `FunctionRegistry.map_values`. -/
def map_values (_ : Ext) (value : RVal) (params : Params) (_ : Ctx) : RVal :=
  if pyIsNA value then .scalar (.str (params.default.getD ""))
  else
    let mapping := params.mapping_dict.getD []
    let dflt := params.default.getD (pyStr value)
    let vs := pyLower (pyTrim (pyStr value))
    match mapping.find? (fun kv => pyLower kv.1 = vs) with
    | Option.some kv => .scalar (.str kv.2)
    | Option.none => .scalar (.str dflt)

/-- `FunctionRegistry.conditional_fill`. -/
def conditional_fill (_ : Ext) (value : RVal) (params : Params) (ctx : Ctx) : RVal :=
  if pyIsNA value ∨ pyTrim (pyStr value) = "" then
    let fallback := params.fallback_col.getD ""
    match ctx.row with
    | Option.some row =>
      if fallback ≠ "" ∧ row.any (fun kv => kv.1 = fallback) then
        ((row.find? (fun kv => kv.1 = fallback)).map Prod.snd).getD (.scalar .none)
      else .scalar (.str (params.default.getD ""))
    | Option.none => .scalar (.str (params.default.getD ""))
  else value

/-- The mock pincode table of `FunctionRegistry.lookup_pincode`. -/
def pincodeMock : List (String × List (String × Val)) :=
  [("400001", [("city", .str "Mumbai"), ("state", .str "Maharashtra"), ("country", .str "India")]),
   ("110001", [("city", .str "New Delhi"), ("state", .str "Delhi"), ("country", .str "India")]),
   ("560001", [("city", .str "Bangalore"), ("state", .str "Karnataka"), ("country", .str "India")]),
   ("600001", [("city", .str "Chennai"), ("state", .str "Tamil Nadu"), ("country", .str "India")]),
   ("700001", [("city", .str "Kolkata"), ("state", .str "West Bengal"), ("country", .str "India")]),
   ("500001", [("city", .str "Hyderabad"), ("state", .str "Telangana"), ("country", .str "India")]),
   ("380001", [("city", .str "Ahmedabad"), ("state", .str "Gujarat"), ("country", .str "India")]),
   ("411001", [("city", .str "Pune"), ("state", .str "Maharashtra"), ("country", .str "India")])]

/-- `FunctionRegistry.lookup_pincode`. -/
def lookup_pincode (_ : Ext) (value : RVal) (_ : Params) (_ : Ctx) : RVal :=
  if pyIsNA value then
    .rdict [("city", .str ""), ("state", .str ""), ("country", .str "")]
  else
    let pincode := pyTrim (pyStr value)
    match pincodeMock.find? (fun kv => kv.1 = pincode) with
    | Option.some kv => .rdict kv.2
    | Option.none => .rdict [("city", .str ""), ("state", .str ""), ("country", .str "India")]

/-- An ASCII upper-case letter, `[A-Z]`. -/
def isUpperAZ (c : Char) : Bool := 'A' ≤ c ∧ c ≤ 'Z'

/-- `[A-Z0-9]`. -/
def isUpperAlnum (c : Char) : Bool := isUpperAZ c ∨ c.isDigit

/-- The fixed GSTIN pattern
`^[0-9]{2}[A-Z]{5}[0-9]{4}[A-Z]{1}[A-Z0-9]{1}Z[A-Z0-9]{1}$`, compiled by
hand. -/
def gstinPattern (s : String) : Bool :=
  match s.data with
  | [a1, a2, b1, b2, b3, b4, b5, c1, c2, c3, c4, d1, e1, z1, f1] =>
    a1.isDigit ∧ a2.isDigit ∧
    isUpperAZ b1 ∧ isUpperAZ b2 ∧ isUpperAZ b3 ∧ isUpperAZ b4 ∧ isUpperAZ b5 ∧
    c1.isDigit ∧ c2.isDigit ∧ c3.isDigit ∧ c4.isDigit ∧
    isUpperAZ d1 ∧ isUpperAlnum e1 ∧ z1 = 'Z' ∧ isUpperAlnum f1
  | _ => false

/-- `FunctionRegistry.validate_gstin`. -/
def validate_gstin (_ : Ext) (value : RVal) (_ : Params) (_ : Ctx) : RVal :=
  if pyIsNA value then
    .rdict [("is_valid", .bool false), ("state_code", .str ""), ("pan", .str ""),
            ("error", .str "Empty value")]
  else
    let gstin := pyUpper (pyTrim (pyStr value))
    if pyLen gstin ≠ 15 then
      .rdict [("is_valid", .bool false), ("state_code", .str ""), ("pan", .str ""),
              ("error", .str ("Invalid length: " ++ toString (pyLen gstin) ++ " (expected 15)"))]
    else if ¬ gstinPattern gstin then
      .rdict [("is_valid", .bool false), ("state_code", .str ""), ("pan", .str ""),
              ("error", .str "Invalid format")]
    else
      .rdict [("is_valid", .bool true), ("state_code", .str (pyTake gstin 2)),
              ("pan", .str (pyTake (pyDrop gstin 2) 10)), ("error", .str "")]

/-- `[a-zA-Z0-9_.+-]`, the local part class of the fixed email pattern. -/
def isEmailLocalChar (c : Char) : Bool :=
  c.isAlphanum ∨ c = '_' ∨ c = '.' ∨ c = '+' ∨ c = '-'

/-- The fixed email pattern
`^[a-zA-Z0-9_.+-]+@[a-zA-Z0-9-]+\.[a-zA-Z0-9-.]+$`, compiled by hand:
exactly one `@`; a non-empty local part over its class; after `@` a
non-empty dot-free label, a dot, and a non-empty tail over
`[a-zA-Z0-9-.]`. -/
def pyEmailMatch (s : String) : Bool :=
  match pySplit s "@" with
  | [a, b] =>
    (a ≠ "" : Bool) && a.data.all isEmailLocalChar &&
    (match pySplit b "." with
     | d :: rest =>
       (rest ≠ [] : Bool) && (d ≠ "" : Bool) &&
       d.data.all (fun c => c.isAlphanum || c = '-') &&
       (let e := pyJoin "." rest
        (e ≠ "" : Bool) && e.data.all (fun c => c.isAlphanum || c = '-' || c = '.'))
     | [] => false)
  | _ => false

/-- `FunctionRegistry.validate_email`. -/
def validate_email (_ : Ext) (value : RVal) (_ : Params) (_ : Ctx) : RVal :=
  if pyIsNA value then
    .rdict [("is_valid", .bool false), ("normalized", .str ""), ("error", .str "Empty value")]
  else
    let email := pyLower (pyTrim (pyStr value))
    if pyEmailMatch email then
      .rdict [("is_valid", .bool true), ("normalized", .str email), ("error", .str "")]
    else
      .rdict [("is_valid", .bool false), ("normalized", .str ""),
              ("error", .str "Invalid email format")]

/-- `FunctionRegistry.normalize_phone` (the `phonenumbers` library is the
`Ext` interface; a parse failure is `Option.none`). -/
def normalize_phone (ext : Ext) (value : RVal) (params : Params) (_ : Ctx) : RVal :=
  if pyIsNA value then .scalar (.str "")
  else
    let ps := pyTrim (pyStr value)
    if ps = "" then .scalar (.str "")
    else
      let region := params.region.getD "IN"
      let fmt := params.format.getD "E.164"
      match ext.phoneParse ps region with
      | Option.none => .scalar (.str ps)
      | Option.some p =>
        if ¬ ext.phoneValid p then .scalar (.str ps)
        else if fmt = "NATIONAL" then .scalar (.str (ext.phoneFormatNational p))
        else if fmt = "INTERNATIONAL" then .scalar (.str (ext.phoneFormatInternational p))
        else .scalar (.str (ext.phoneFormatE164 p))

/-- The names registered by `FunctionRegistry._register_all_functions`, in
registration order. -/
def registryNames : List String :=
  ["SPLIT_FULL_NAME", "REGEX_EXTRACT", "CLEAN_WHITESPACE", "SMART_DATE_PARSE",
   "FORMAT_DATE", "NORMALIZE_CURRENCY", "MAP_VALUES", "CONDITIONAL_FILL",
   "LOOKUP_PINCODE", "VALIDATE_GSTIN", "VALIDATE_EMAIL", "NORMALIZE_PHONE",
   "UPPERCASE", "LOWERCASE", "TITLECASE", "TRIM", "CONCATENATE", "COMPUTE_DATE_DIFF"]

/-- `FunctionRegistry.get` (names are registered and looked up
upper-cased). -/
def registryGet (name : String) : Option (Ext → RVal → Params → Ctx → RVal) :=
  match pyUpper name with
  | "SPLIT_FULL_NAME" => Option.some split_full_name
  | "REGEX_EXTRACT" => Option.some regex_extract
  | "CLEAN_WHITESPACE" => Option.some clean_whitespace
  | "SMART_DATE_PARSE" => Option.some smart_date_parse
  | "FORMAT_DATE" => Option.some format_date
  | "NORMALIZE_CURRENCY" => Option.some normalize_currency
  | "MAP_VALUES" => Option.some map_values
  | "CONDITIONAL_FILL" => Option.some conditional_fill
  | "LOOKUP_PINCODE" => Option.some lookup_pincode
  | "VALIDATE_GSTIN" => Option.some validate_gstin
  | "VALIDATE_EMAIL" => Option.some validate_email
  | "NORMALIZE_PHONE" => Option.some normalize_phone
  | "UPPERCASE" => Option.some uppercase
  | "LOWERCASE" => Option.some lowercase
  | "TITLECASE" => Option.some titlecase
  | "TRIM" => Option.some trim
  | "CONCATENATE" => Option.some concatenate
  | "COMPUTE_DATE_DIFF" => Option.some compute_date_diff
  | _ => Option.none

/-- `FunctionRegistry.execute`: raises "Unknown function" for an
unregistered name, otherwise applies the function. -/
def registryExecute (ext : Ext) (name : String) (value : RVal) (params : Params)
    (ctx : Ctx) : Except String RVal :=
  match registryGet name with
  | Option.some f => .ok (f ext value params ctx)
  | Option.none => .error ("Unknown function: " ++ name)

/-! ## DataFrames

A pandas DataFrame is modelled as an ordered association list of columns
(name, cell values); `df[c] = series` replaces the named column in place
or appends it.  Column names are unique in every frame the source
builds. -/

abbrev Frame := List (String × List RVal)

/-- `df.columns`. -/
def Frame.colNames (f : Frame) : List String := f.map Prod.fst

/-- `c in df.columns`. -/
def Frame.hasCol (f : Frame) (c : String) : Bool := f.any (fun kv => kv.1 = c)

/-- `df[c]` (first matching column). -/
def Frame.getCol? (f : Frame) (c : String) : Option (List RVal) :=
  (f.find? (fun kv => kv.1 = c)).map Prod.snd

/-- `df[c] = vs`: replace the named column in place (column names are
unique in every source-built frame, so replacing the first occurrence is
pandas' behaviour), else append it. -/
def Frame.setCol : Frame → String → List RVal → Frame
  | [], c, vs => [(c, vs)]
  | kv :: rest, c, vs =>
    if kv.1 = c then (c, vs) :: rest else kv :: Frame.setCol rest c vs

/-- `len(df)` (all columns of a source-built frame have this length). -/
def Frame.nRows (f : Frame) : Nat :=
  match f with
  | [] => 0
  | kv :: _ => kv.2.length

/-- The i-th row, as `df.apply(axis=1)` presents it. -/
def Frame.rowAt (f : Frame) (i : Nat) : List (String × RVal) :=
  f.map (fun kv => (kv.1, kv.2.getD i (.scalar .none)))

/-- All rows, in order. -/
def Frame.rows (f : Frame) : List (List (String × RVal)) :=
  (List.range f.nRows).map f.rowAt

/-- `df.empty`: no columns, or a zero-length index. -/
def Frame.emptyDF (f : Frame) : Bool :=
  match f with
  | [] => true
  | kv :: _ => kv.2.isEmpty

/-- Every column has the frame's row count (true of every frame the
source builds). -/
def Frame.uniformB (f : Frame) : Bool :=
  f.all (fun kv => kv.2.length = f.nRows)

/-! ## Transformation plans

Modelled from the spec: `src/src/schemas/transformation_plan.py` is not
among the source files (only its callers are); §3 of the spec defines
`TransformationPlan` with confidence_score, ordered column_mappings
(source_col, target_col, action, transform_id), ordered transformations
(id, function, input_col/input_cols, output_col/output_cols, params),
ordered enrichments (id, trigger_col, target_cols, api_service,
strategy), unmapped columns, warnings, requires_user_input and
user_questions; the field shapes below also agree with every constructor
call in `transformation_planner.py` and every field access in
`execution_engine.py` and `orchestrator.py`. -/

structure ColumnMapping where
  source_col : String
  target_col : String
  action : String := "direct"
  transform_id : Option String := Option.none
deriving Repr, DecidableEq

structure Transformation where
  id : String := ""
  function : String := ""
  input_col : Option String := Option.none
  input_cols : Option (List String) := Option.none
  output_col : Option String := Option.none
  output_cols : Option (List String) := Option.none
  params : Params := {}
deriving Repr, DecidableEq

structure Enrichment where
  id : String := ""
  trigger_col : String := ""
  target_cols : List String := []
  api_service : String := ""
  strategy : String := "cache_first_then_api"
  params : Params := {}
deriving Repr, DecidableEq

structure TransformationPlan where
  transformation_id : String := ""
  confidence_score : ℚ := 1 / 2
  column_mappings : List ColumnMapping := []
  transformations : List Transformation := []
  enrichments : List Enrichment := []
  unmapped_source_cols : List String := []
  unmapped_target_cols : List String := []
  warnings : List String := []
  requires_user_input : Bool := false
  user_questions : List String := []
deriving Repr, DecidableEq

/-- Python truthiness of an optional string (`None` and `""` are falsy). -/
def pyTruthyStr (o : Option String) : Bool := o.getD "" ≠ ""

/-- Python truthiness of an optional list (`None` and `[]` are falsy). -/
def pyTruthyList {α : Type} (o : Option (List α)) : Bool := ¬ (o.getD []).isEmpty

/-! ## Execution Engine (`src/src/engine/execution_engine.py`) -/

/-- The function names `_apply_single_transformation` special-cases as
dict-returning. -/
def dictReturners : List String :=
  ["SPLIT_FULL_NAME", "VALIDATE_GSTIN", "VALIDATE_EMAIL", "LOOKUP_PINCODE"]

/-- `ExecutionEngine._apply_single_transformation`.  An `.error` is an
exception escaping the method (caught by `_apply_transformations`). -/
def applySingleTransformation (ext : Ext) (df : Frame) (t : Transformation) :
    Except String Frame := do
  let funcName := t.function
  let params := t.params
  if pyTruthyStr t.input_col ∧ df.hasCol (t.input_col.getD "") then
    let inputCol := t.input_col.getD ""
    let colVals := (df.getCol? inputCol).getD []
    if dictReturners.contains funcName then
      let results ← colVals.mapM (fun x => registryExecute ext funcName x params {})
      if pyTruthyList t.output_cols then
        return (t.output_cols.getD []).foldl (fun acc col =>
          acc.setCol col (results.map (fun x =>
            match x with
            | .rdict d =>
              (((d.find? (fun kv => kv.1 = col)).map (fun kv => RVal.scalar kv.2)).getD
                (.scalar (.str "")))
            | _ => .scalar (.str "")))) df
      else if pyTruthyStr t.output_col then
        let outVals ← results.mapM (fun x =>
          match x with
          | .rdict [] => Except.error "list index out of range"
          | .rdict (kv :: _) => .ok (RVal.scalar kv.2)
          | other => .ok other)
        return df.setCol (t.output_col.getD "") outVals
      else
        return df
    else
      let outputCol := if pyTruthyStr t.output_col then t.output_col.getD "" else inputCol
      if funcName = "CONDITIONAL_FILL" then
        let outVals ← df.rows.mapM (fun row =>
          registryExecute ext funcName
            (((row.find? (fun kv => kv.1 = inputCol)).map Prod.snd).getD (.scalar .none))
            params { row := Option.some row })
        return df.setCol outputCol outVals
      else
        let outVals ← colVals.mapM (fun x => registryExecute ext funcName x params {})
        return df.setCol outputCol outVals
  else if pyTruthyList t.input_cols then
    if pyTruthyStr t.output_col then
      let inCols := t.input_cols.getD []
      let outVals ← df.rows.mapM (fun row =>
        registryExecute ext funcName (.scalar .none) params
          { values := Option.some
              ((inCols.filter (fun c => row.any (fun kv => kv.1 = c))).map
                (fun c => ((row.find? (fun kv => kv.1 = c)).map Prod.snd).getD
                  (.scalar .none))),
            row := Option.some row })
      return df.setCol (t.output_col.getD "") outVals
    else
      return df
  else
    return df

/-- `ExecutionEngine._apply_transformations`: each transformation's
exception is caught and recorded as a warning; execution continues. -/
def applyTransformations (ext : Ext) (df0 : Frame) (plan : TransformationPlan) :
    Frame × List String :=
  plan.transformations.foldl (fun acc t =>
    match applySingleTransformation ext acc.1 t with
    | .ok df' => (df', acc.2)
    | .error e => (acc.1, acc.2 ++ ["Transformation " ++ t.id ++ " failed: " ++ e]))
    (df0, [])

/-- `ExecutionEngine._apply_single_enrichment`. -/
def applySingleEnrichment (ext : Ext) (df : Frame) (e : Enrichment) :
    Except String Frame := do
  let triggerCol := e.trigger_col
  if ¬ df.hasCol triggerCol then
    return df
  else
    let funcName :=
      if e.api_service = "postal_code_lookup" then "LOOKUP_PINCODE"
      else if e.api_service = "pincode_lookup" then "LOOKUP_PINCODE"
      else pyUpper e.api_service
    let results ← ((df.getCol? triggerCol).getD []).mapM
      (fun x => registryExecute ext funcName x e.params {})
    return e.target_cols.foldl (fun acc col =>
      let colLower := pyLower col
      acc.setCol col (results.map (fun x =>
        match x with
        | .rdict d =>
          (match d.find? (fun kv => kv.1 = colLower) with
           | Option.some kv => RVal.scalar kv.2
           | Option.none =>
             ((d.find? (fun kv => kv.1 = col)).map (fun kv => RVal.scalar kv.2)).getD
               (.scalar (.str "")))
        | _ => .scalar (.str "")))) df

/-- `ExecutionEngine._apply_enrichments`: exceptions per-enrichment are
warnings, non-fatal. -/
def applyEnrichments (ext : Ext) (df0 : Frame) (plan : TransformationPlan) :
    Frame × List String :=
  plan.enrichments.foldl (fun acc e =>
    match applySingleEnrichment ext acc.1 e with
    | .ok df' => (df', acc.2)
    | .error msg => (acc.1, acc.2 ++ ["Enrichment " ++ e.id ++ " failed: " ++ msg]))
    (df0, [])

/-- What a non-skip column mapping assigns, following exactly the
`direct`/`transform` branches of `_apply_column_mappings` (`skip` and
unknown actions assign nothing). -/
def mappingAssigned (df : Frame) (m : ColumnMapping) : Option (List RVal) :=
  if m.action = "direct" then
    match df.getCol? m.source_col with
    | Option.some vs => Option.some vs
    | Option.none => df.getCol? m.target_col
  else if m.action = "transform" then
    match df.getCol? m.target_col with
    | Option.some vs => Option.some vs
    | Option.none => df.getCol? m.source_col
  else Option.none

/-- The non-skip mapping targets of a plan. -/
def nonSkipTargets (plan : TransformationPlan) : List String :=
  (plan.column_mappings.filter (fun m => m.action ≠ "skip")).map (fun m => m.target_col)

/-- The mapping loop of `_apply_column_mappings`: each mapping either
assigns `target_df[target_col]` or does nothing. -/
def projectMappings (df : Frame) (mappings : List ColumnMapping) (acc : Frame) : Frame :=
  mappings.foldl (fun acc m =>
    match mappingAssigned df m with
    | Option.some vs => acc.setCol m.target_col vs
    | Option.none => acc) acc

/-- The trailing loop of `_apply_column_mappings`: every intermediate
column produced by an enrichment but named by no mapping is appended. -/
def appendEnrichmentCols (plan : TransformationPlan) (df : Frame) (acc : Frame) : Frame :=
  df.foldl (fun (acc : Frame) kv =>
    if ¬ (plan.column_mappings.map (fun m => m.target_col)).contains kv.1 ∧
        ¬ acc.hasCol kv.1 ∧
        plan.enrichments.any (fun e => e.target_cols.contains kv.1) then
      acc ++ [(kv.1, kv.2)]
    else acc) acc

/-- `ExecutionEngine._apply_column_mappings`: project the mapped columns
into a fresh frame, append enrichment-produced columns not named by any
mapping, and fall back to the full intermediate frame when the
projection is empty. -/
def applyColumnMappings (df : Frame) (plan : TransformationPlan) : Frame :=
  let target2 := appendEnrichmentCols plan df (projectMappings df plan.column_mappings [])
  if target2.emptyDF then df else target2

/-- The intermediate frame after phases 1 (transformations) and 2
(enrichments). -/
def interFrame (ext : Ext) (df : Frame) (plan : TransformationPlan) : Frame :=
  (applyEnrichments ext (applyTransformations ext df plan).1 plan).1

/-- `ExecutionEngine.execute`: `result_df = df.copy()`, then the three
phases on the copy.  The second component is the engine's accumulated
warnings (the Python-returned `errors` list is always empty: nothing in
the engine appends to it). -/
def executeEngine (ext : Ext) (df : Frame) (plan : TransformationPlan) :
    Frame × List String :=
  let resultDf := df
  let t := applyTransformations ext resultDf plan
  let e := applyEnrichments ext t.1 plan
  (applyColumnMappings e.1 plan, t.2 ++ e.2)

/-- The caller's heap, for the aliasing claim: a store of frame objects
addressed by index. -/
abbrev Store := List Frame

/-- `ExecutionEngine.execute` at the heap level: the input object at
index `i` is read once, `df.copy()` allocates a fresh object at index
`|st|`, and all three phases write only that fresh object, which is
returned. -/
def executeEngineStore (ext : Ext) (st : Store) (i : Nat) (plan : TransformationPlan) :
    Store × Nat × Frame :=
  let df := st.getD i []
  let j := st.length
  let st1 := st ++ [df]
  let res := executeEngine ext df plan
  (st1.set j res.1, j, res.1)

/-! ## Target schemas (`src/src/schemas/target_schema.py`) -/

structure TargetColumn where
  name : String
  data_type : String := "string"
  required : Bool := false
  max_length : Option Nat := Option.none
  pattern : Option String := Option.none
  allowed_values : Option (List String) := Option.none
  description : Option String := Option.none
  common_source_names : List String := []
  transformation_hint : Option String := Option.none
deriving Repr, DecidableEq

structure TargetSchema where
  name : String
  version : String := "1.0"
  description : Option String := Option.none
  columns : List TargetColumn := []
  unique_columns : List String := []
  required_columns : List String := []
deriving Repr, DecidableEq

/-! ## Detected tables and matches

Modelled from the spec: `src/src/schemas/detected_table.py` is not among
the source files (only its callers are); §3 of the spec defines
`TableBoundary` and `DetectedTable` (boundary, table_id, title,
header_row, column_names, table_type, confidence, sample values keyed by
column name), §4.3 the matcher's outputs.  Field shapes agree with every
access in `table_matching_agent.py` and `orchestrator.py`. -/

structure TableBoundary where
  start_row : Nat
  end_row : Nat
  start_col : Nat
  end_col : Nat
deriving Repr, DecidableEq

structure DetectedTable where
  table_id : String
  boundary : TableBoundary := { start_row := 0, end_row := 0, start_col := 0, end_col := 0 }
  title : Option String := Option.none
  header_row : Nat := 0
  column_names : List String := []
  table_type : String := "data"
  confidence : ℚ := 1
  sample_values : List (String × List String) := []
  row_count : Nat := 0
  column_count : Nat := 0
deriving Repr, DecidableEq

structure TableMatch where
  table_id : String
  target_schema_name : String
  match_score : ℚ
  matched_columns : List (String × String) := []
  unmatched_source_cols : List String := []
  unmatched_target_cols : List String := []
deriving Repr, DecidableEq

structure TableMatchingResult where
  target_schema_name : String
  «matches» : List TableMatch := []
  best_match_table_id : Option String := Option.none
  requires_user_selection : Bool := false
  user_prompt : Option String := Option.none
deriving Repr, DecidableEq

/-- Modelled from the spec: `TableMatchingResult.get_good_matches`
(its class is in the missing `detected_table.py`): §4.3 "tables scoring
≥ 0.7 are good matches". -/
def TableMatchingResult.get_good_matches (r : TableMatchingResult) : List TableMatch :=
  r.«matches».filter (fun m => 7 / 10 ≤ m.match_score)

/-- Modelled from the spec: the best match by recorded id (used by the
orchestrator only for display). -/
def TableMatchingResult.get_best_match (r : TableMatchingResult) : Option TableMatch :=
  match r.best_match_table_id with
  | Option.some tid => r.«matches».find? (fun m => m.table_id = tid)
  | Option.none => Option.none

/-! ## Table Matcher (`src/src/agents/table_matching_agent.py`) -/

/-- `_normalize_column_name`: lowercase, strip `[^a-z0-9]`. -/
def normalizeColumnName (name : String) : String :=
  ⟨(pyLower name).data.filter (fun c => ('a' ≤ c ∧ c ≤ 'z') ∨ c.isDigit)⟩

/-- A separator of `_extract_keywords`'s `re.split(r'[_\s\-\.]+', ...)`. -/
def kwSep (c : Char) : Bool := c = '_' || wsChar c || c = '-' || c = '.'

/-- Maximal runs of non-separator characters. -/
def tokenizeAux : List Char → List Char → List (List Char)
  | [], cur => if cur = [] then [] else [cur.reverse]
  | c :: cs, cur =>
    if kwSep c then
      (if cur = [] then tokenizeAux cs [] else cur.reverse :: tokenizeAux cs [])
    else tokenizeAux cs (c :: cur)

/-- `_extract_keywords`: split the lowercased name on separators (the
camelCase pass is the identity on an already-lowercased word), keep
words longer than one character. -/
def extractKeywords (name : String) : List String :=
  ((tokenizeAux (pyLower name).data []).map (fun l => (⟨l⟩ : String))).filter
    (fun w => 1 < pyLen w)

/-- Is `sub` a substring (Python `in`)? -/
def containsSubL (sub : List Char) : List Char → Bool
  | [] => startsWithL [] sub
  | c :: cs => startsWithL (c :: cs) sub || containsSubL sub cs

def pyInStr (sub s : String) : Bool := containsSubL sub.data s.data

/-- The fixed phone pattern `^[\+\d\s\-\(\)]{8,}$` of
`_infer_semantic_type`, compiled by hand. -/
def phonePatternMatch (s : String) : Bool :=
  decide (8 ≤ s.data.length) &&
    s.data.all (fun c => c = '+' || c.isDigit || wsChar c || c = '-' || c = '(' || c = ')')

def dateSepChar (c : Char) : Bool := c = '-' || c = '/' || c = '.'

/-- A match of the fixed date pattern (one to four digits, a separator
from `dateSepChar`, one or two digits, a separator, one to four digits)
starting at the head of the list. -/
def datePrefixMatch (cs : List Char) : Bool :=
  [1, 2, 3, 4].any fun j1 =>
    decide ((cs.take j1).length = j1) && (cs.take j1).all Char.isDigit &&
    (match cs.drop j1 with
     | s :: rest =>
       dateSepChar s &&
       ([1, 2].any fun j2 =>
         decide ((rest.take j2).length = j2) && (rest.take j2).all Char.isDigit &&
         (match rest.drop j2 with
          | s2 :: rest2 =>
            dateSepChar s2 &&
            ([1, 2, 3, 4].any fun j3 =>
              decide ((rest2.take j3).length = j3) && (rest2.take j3).all Char.isDigit)
          | [] => false))
     | [] => false)

def anySuffix (p : List Char → Bool) : List Char → Bool
  | [] => false
  | c :: cs => p (c :: cs) || anySuffix p cs

/-- `re.search` of the fixed date pattern. -/
def datePatternSearch (s : String) : Bool := anySuffix datePrefixMatch s.data

/-- `re.sub(r'\s', '', s)`. -/
def removeWs (s : String) : String := ⟨s.data.filter (fun c => ¬ wsChar c)⟩

/-- `_infer_semantic_type`. -/
def inferSemanticType (sampleValues : List String) : String :=
  if sampleValues.isEmpty then "string"
  else
    let n := sampleValues.length
    let emailCount := (sampleValues.filter (fun v => pyEmailMatch v)).length
    let phoneCount := (sampleValues.filter (fun v => phonePatternMatch (removeWs v))).length
    let dateCount := (sampleValues.filter (fun v => datePatternSearch v)).length
    if 1 / 2 ≤ (emailCount : ℚ) / n then "email"
    else if 1 / 2 ≤ (phoneCount : ℚ) / n then "phone"
    else if 1 / 2 ≤ (dateCount : ℚ) / n then "date"
    else
      let numericCount := (sampleValues.filter (fun v =>
        (pyFloatParts (pyReplace (pyReplace (pyReplace v "," "") "$" "") "₹" "")).isSome)).length
      if 1 / 2 ≤ (numericCount : ℚ) / n then
        (if sampleValues.any (fun v => pyContainsChar v '.') then "float" else "integer")
      else "string"

/-- `_types_compatible`'s fixed compatibility groups. -/
def compatGroups : List (List String) :=
  [["string", "name", "first_name", "last_name", "full_name", "address", "city",
    "state", "country"],
   ["integer", "float", "number", "currency", "quantity"],
   ["phone", "phone_number", "mobile"],
   ["email", "email_address"],
   ["date", "datetime", "timestamp"]]

def typesCompatible (sourceType targetType : String) : Bool :=
  compatGroups.any (fun g => g.contains sourceType && g.contains targetType)

/-- Step 2 of `_calculate_column_match_score` when no alias matches
exactly: 0.8 for a partial (substring) alias match, else the running 0. -/
def scoreAliasPartial (sourceNorm : String) (commonSourceNames : List String) : ℚ :=
  if commonSourceNames.any (fun cn =>
      let cnorm := normalizeColumnName cn
      pyInStr cnorm sourceNorm || pyInStr sourceNorm cnorm) then 8 / 10
  else 0

/-- Step 3: `score = max(score, similarity * 0.9)`. -/
def scoreWithSimilarity (ext : Ext) (sourceNorm targetNorm : String)
    (commonSourceNames : List String) : ℚ :=
  max (scoreAliasPartial sourceNorm commonSourceNames)
    (ext.seqRatio sourceNorm targetNorm * (9 / 10))

/-- Step 4: the semantic-type bump (0.7 exact, 0.5 compatible) when
sample values exist. -/
def scoreWithSemantic (base : ℚ) (targetType : String) (sampleValues : List String) : ℚ :=
  if ¬ sampleValues.isEmpty then
    (if inferSemanticType sampleValues = targetType then max base (7 / 10)
     else if typesCompatible (inferSemanticType sampleValues) targetType then max base (1 / 2)
     else base)
  else base

/-- Step 5: the keyword-overlap bump `0.6 × overlap + 0.3`. -/
def scoreWithKeyword (base : ℚ) (sourceCol targetCol : String) : ℚ :=
  let sourceKeywords := (extractKeywords sourceCol).dedup
  let targetKeywords := (extractKeywords targetCol).dedup
  let inter := sourceKeywords.filter (fun w => targetKeywords.contains w)
  if ¬ inter.isEmpty then
    max base (6 / 10 * ((inter.length : ℚ) /
      (max sourceKeywords.length targetKeywords.length : ℚ)) + 3 / 10)
  else base

/-- `_calculate_column_match_score`: exact normalized match returns 1;
an exact alias match returns 0.95; otherwise the running maximum of the
partial-alias (0.8), scaled string-similarity (0.9 × ratio), semantic
(0.7 / 0.5) and keyword (0.6 × overlap + 0.3) scores, in the source's
update order. -/
def calculateColumnMatchScore (ext : Ext) (sourceCol targetCol : String)
    (commonSourceNames : List String) (targetType : String)
    (sampleValues : List String) : ℚ :=
  let sourceNorm := normalizeColumnName sourceCol
  let targetNorm := normalizeColumnName targetCol
  if sourceNorm = targetNorm then 1
  else if commonSourceNames.any (fun cn => normalizeColumnName cn = sourceNorm) then 19 / 20
  else
    scoreWithKeyword
      (scoreWithSemantic (scoreWithSimilarity ext sourceNorm targetNorm commonSourceNames)
        targetType sampleValues)
      sourceCol targetCol

/-- The `{col.name: col for col in target_schema.columns}` dict: first
insertion fixes the position, a later same-named column replaces the
value. -/
def targetColsDict (columns : List TargetColumn) : List (String × TargetColumn) :=
  columns.foldl (fun acc col =>
    if acc.any (fun kv => kv.1 = col.name) then
      acc.map (fun kv => if kv.1 = col.name then (col.name, col) else kv)
    else acc ++ [(col.name, col)]) []

/-- One iteration of the inner loop of `_match_table_to_schema`:
a claimed target is skipped, an unclaimed one replaces the best on
strict improvement. -/
def bestStep (ext : Ext) (table : DetectedTable) (claimed : List String) (sourceCol : String)
    (b : Option String × ℚ) (tc : String × TargetColumn) : Option String × ℚ :=
  if claimed.contains tc.1 then b
  else
    let score := calculateColumnMatchScore ext sourceCol tc.1 tc.2.common_source_names
      tc.2.data_type (((table.sample_values.find? (fun kv => kv.1 = sourceCol)).map
        Prod.snd).getD [])
    if b.2 < score then (Option.some tc.1, score) else b

/-- The inner loop of `_match_table_to_schema`: the best-scoring
unclaimed target (strict improvement, iteration in dict order). -/
def bestTargetFor (ext : Ext) (table : DetectedTable) (targetCols : List (String × TargetColumn))
    (claimed : List String) (sourceCol : String) : Option String × ℚ :=
  targetCols.foldl (bestStep ext table claimed sourceCol) (Option.none, 0)

/-- The outer loop of `_match_table_to_schema`: greedily claim, for each
source column in order, the best-scoring unclaimed target above the
moderate threshold (0.4); the state is (matched pairs, claimed target
set). -/
def claimColumns (ext : Ext) (table : DetectedTable)
    (targetCols : List (String × TargetColumn)) :
    List String → List (String × String) × List String →
      List (String × String) × List String
  | [], st => st
  | sourceCol :: rest, st =>
    let best := bestTargetFor ext table targetCols st.2 sourceCol
    claimColumns ext table targetCols rest
      (match best.1 with
       | Option.some bm =>
         if bm ≠ "" ∧ 4 / 10 ≤ best.2 then (st.1 ++ [(sourceCol, bm)], st.2 ++ [bm]) else st
       | Option.none => st)

/-- `TableMatchingAgent._match_table_to_schema`. -/
def matchTableToSchema (ext : Ext) (table : DetectedTable) (targetSchema : TargetSchema) :
    TableMatch :=
  let targetCols := targetColsDict targetSchema.columns
  let res := claimColumns ext table targetCols table.column_names ([], [])
  let matchedColumns := res.1
  let claimed := res.2
  let unmatchedSource := table.column_names.filter
    (fun c => ¬ (matchedColumns.map Prod.fst).contains c)
  let unmatchedTarget := (targetSchema.columns.filter
    (fun col => ¬ claimed.contains col.name ∧ col.required)).map (fun col => col.name)
  let totalTarget := targetSchema.columns.length
  let matchedCount := matchedColumns.length
  let requiredMatched := (targetSchema.columns.filter
    (fun col => col.required ∧ claimed.contains col.name)).length
  let requiredTotal := targetSchema.required_columns.length
  let requiredScore : ℚ := if 0 < requiredTotal then (requiredMatched : ℚ) / requiredTotal else 1
  let optionalTotal : Int := (totalTarget : Int) - requiredTotal
  let optionalScore : ℚ :=
    if 0 < optionalTotal then ((matchedCount : ℚ) - requiredMatched) / (optionalTotal : ℚ)
    else 1
  { table_id := table.table_id
    target_schema_name := targetSchema.name
    match_score := 6 / 10 * requiredScore + 4 / 10 * optionalScore
    matched_columns := matchedColumns
    unmatched_source_cols := unmatchedSource
    unmatched_target_cols := unmatchedTarget }

/-- `_generate_selection_prompt`, display-only: the exact text is never
inspected by control flow; the header line is kept, the per-table
rendering (title, column preview, row count, percentage formatting) is
abstracted to the table ids. -/
def generateSelectionPrompt (goodMatches : List TableMatch) (_ : List DetectedTable) : String :=
  pyJoin "\n" ("Multiple tables match the target schema. Please select one:"
    :: goodMatches.map (fun m => m.table_id))

/-- `TableMatchingAgent.run`: score every table, sort the matches by
score descending (Python's stable sort), compute the good matches and
the selection flag. -/
def tableMatcherRun (ext : Ext) (detectedTables : List DetectedTable)
    (targetSchema : TargetSchema) : TableMatchingResult :=
  let allMatches := detectedTables.map (fun t => matchTableToSchema ext t targetSchema)
  let sorted := allMatches.mergeSort (fun a b => decide (b.match_score ≤ a.match_score))
  let goodMatches := sorted.filter (fun m => 7 / 10 ≤ m.match_score)
  let bestMatchId :=
    match sorted with
    | [] => Option.none
    | m :: _ => Option.some m.table_id
  let requiresSelection := decide (1 < goodMatches.length)
  { target_schema_name := targetSchema.name
    «matches» := sorted
    best_match_table_id := bestMatchId
    requires_user_selection := requiresSelection
    user_prompt :=
      if requiresSelection then
        Option.some (generateSelectionPrompt goodMatches detectedTables)
      else Option.none }

/-! ## Orchestrator data model (`src/src/agents/orchestrator.py`)

Timestamps (`datetime.now().isoformat()`) are modelled by an abstract
monotone counter threaded through the stage functions.  The remaining
nested result objects live in schema modules absent from the source
files and are modelled from the spec (§3, §4.4), with the shapes every
access in `orchestrator.py` uses. -/

/-- Modelled from the spec: `ColumnAnalysis` of the missing
`source_schema.py` (§4.4 per-column statistics). -/
structure ColumnAnalysis where
  column_name : String
  inferred_type : String := "string"
  total_count : Nat := 0
  null_count : Nat := 0
  unique_count : Nat := 0
  semantic_type : Option String := Option.none
deriving Repr, DecidableEq

/-- Modelled from the spec: `SourceSchemaAnalysis` of the missing
`source_schema.py`. -/
structure SourceSchemaAnalysis where
  columns : List ColumnAnalysis := []
  total_rows : Nat := 0
  total_columns : Nat := 0
  overall_quality : String := "fair"
deriving Repr, DecidableEq

/-- Modelled from the spec: `MultiTableAnalysis` of the missing
`detected_table.py` (§4.2 output). -/
structure MultiTableAnalysis where
  tables : List DetectedTable := []
  total_tables_detected : Nat := 0
  detection_method : String := "heuristic"
  overall_confidence : ℚ := 1
deriving Repr, DecidableEq

/-- Modelled from the spec: table lookup by generator-assigned id. -/
def MultiTableAnalysis.get_table_by_id (m : MultiTableAnalysis) (tid : String) :
    Option DetectedTable :=
  m.tables.find? (fun t => t.table_id = tid)

/-- Modelled from the spec: `ValidationReport` of the missing
`validation_report.py` (§3); only the fields the orchestrator touches. -/
structure ValidationReport where
  total_rows : Nat := 0
  successful_rows : Nat := 0
  failed_rows : Nat := 0
  warning_rows : Nat := 0
  quality_score : ℚ := 0
  status : String := ""
  summary : String := ""
deriving Repr, DecidableEq

/-- `JobStatus` (str enum). -/
inductive JobStatus where
  | pending
  | detecting_tables
  | selecting_table
  | analyzing
  | planning
  | waiting_for_input
  | executing
  | validating
  | completed
  | failed
deriving Repr, DecidableEq

/-- The enum's string value. -/
def JobStatus.value : JobStatus → String
  | .pending => "pending"
  | .detecting_tables => "detecting_tables"
  | .selecting_table => "selecting_table"
  | .analyzing => "analyzing"
  | .planning => "planning"
  | .waiting_for_input => "waiting_for_input"
  | .executing => "executing"
  | .validating => "validating"
  | .completed => "completed"
  | .failed => "failed"

/-- `JobStatus(s)`: the member with that value, else a `ValueError`
(modelled as `none`). -/
def jobStatusOfString (s : String) : Option JobStatus :=
  if s = "pending" then Option.some .pending
  else if s = "detecting_tables" then Option.some .detecting_tables
  else if s = "selecting_table" then Option.some .selecting_table
  else if s = "analyzing" then Option.some .analyzing
  else if s = "planning" then Option.some .planning
  else if s = "waiting_for_input" then Option.some .waiting_for_input
  else if s = "executing" then Option.some .executing
  else if s = "validating" then Option.some .validating
  else if s = "completed" then Option.some .completed
  else if s = "failed" then Option.some .failed
  else Option.none

/-- `TransformationJob`.  The two trailing fields model the transient
`_selected_table_df` / `_result_df` attributes the stage methods attach
with `setattr` (absent from `to_dict`). -/
structure TransformationJob where
  job_id : String
  source_file : String
  target_schema_name : String := "generic_customer"
  status : JobStatus := .pending
  created_at : Nat := 0
  updated_at : Nat := 0
  source_analysis : Option SourceSchemaAnalysis := Option.none
  transformation_plan : Option TransformationPlan := Option.none
  validation_report : Option ValidationReport := Option.none
  output_file : Option String := Option.none
  pending_questions : List String := []
  user_answers : List (String × String) := []
  multi_table_analysis : Option MultiTableAnalysis := Option.none
  table_matching_result : Option TableMatchingResult := Option.none
  selected_table_id : Option String := Option.none
  error_message : Option String := Option.none
  retry_count : Nat := 0
  max_retries : Nat := 3
  selected_table_df : Option Frame := Option.none
  result_df : Option Frame := Option.none
deriving Repr, DecidableEq

/-- The JSON snapshot `TransformationJob.to_dict` writes: exactly these
keys, nothing else (no selected_table_id, no multi_table_analysis, no
table_matching_result, no max_retries). -/
structure JobDict where
  job_id : String
  source_file : String
  target_schema_name : String
  status : String
  created_at : Nat
  updated_at : Nat
  source_analysis : Option SourceSchemaAnalysis
  transformation_plan : Option TransformationPlan
  validation_report : Option ValidationReport
  output_file : Option String
  pending_questions : List String
  user_answers : List (String × String)
  error_message : Option String
  retry_count : Nat
deriving Repr, DecidableEq

/-- `TransformationJob.to_dict` (`model_dump` of a nested object is the
object itself in this model). -/
def TransformationJob.to_dict (job : TransformationJob) : JobDict :=
  { job_id := job.job_id
    source_file := job.source_file
    target_schema_name := job.target_schema_name
    status := job.status.value
    created_at := job.created_at
    updated_at := job.updated_at
    source_analysis := job.source_analysis
    transformation_plan := job.transformation_plan
    validation_report := job.validation_report
    output_file := job.output_file
    pending_questions := job.pending_questions
    user_answers := job.user_answers
    error_message := job.error_message
    retry_count := job.retry_count }

/-- `TransformationJob.from_dict`: restores the primitive fields and
reconstructs `validation_report` and `transformation_plan` — but not
`source_analysis` (serialized yet ignored), and nothing ever restores
`selected_table_id` / `multi_table_analysis` / `table_matching_result`
(not serialized) or `max_retries` (reset to the constructor's 3).
An unknown status string raises (modelled as `none`). -/
def TransformationJob.from_dict (d : JobDict) : Option TransformationJob :=
  match jobStatusOfString d.status with
  | Option.none => Option.none
  | Option.some st =>
    Option.some
      { job_id := d.job_id
        source_file := d.source_file
        target_schema_name := d.target_schema_name
        status := st
        created_at := d.created_at
        updated_at := d.updated_at
        output_file := d.output_file
        pending_questions := d.pending_questions
        user_answers := d.user_answers
        error_message := d.error_message
        retry_count := d.retry_count
        validation_report := d.validation_report
        transformation_plan := d.transformation_plan }

/-- `GENERIC_CUSTOMER_SCHEMA` (transcribed from
`src/src/schemas/target_schema.py`). -/
def GENERIC_CUSTOMER_SCHEMA : TargetSchema :=
  { name := "Generic_Customer"
    version := "1.0"
    description := Option.some "Generic customer/contact schema"
    columns :=
      [{ name := "first_name", data_type := "string", required := true,
         max_length := Option.some 100,
         common_source_names := ["fname", "first", "first_name", "firstname", "name",
                                 "cust_name", "customer_name"] },
       { name := "last_name", data_type := "string",
         max_length := Option.some 100,
         common_source_names := ["lname", "last", "last_name", "lastname", "surname"] },
       { name := "email", data_type := "email",
         pattern := Option.some "^[a-zA-Z0-9_.+-]+@[a-zA-Z0-9-]+\\.[a-zA-Z0-9-.]+$",
         common_source_names := ["email", "email_id", "mail", "e-mail", "emailid"] },
       { name := "phone", data_type := "phone",
         common_source_names := ["phone", "mobile", "contact", "mobile_no", "phone_no",
                                 "mob", "cell"] },
       { name := "address", data_type := "string",
         common_source_names := ["address", "addr", "street", "location", "address1"] },
       { name := "city", data_type := "string",
         common_source_names := ["city", "town", "district"] },
       { name := "state", data_type := "string",
         common_source_names := ["state", "province", "region"] },
       { name := "pincode", data_type := "string",
         pattern := Option.some "^\\d{6}$",
         common_source_names := ["pincode", "pin", "zip", "postal_code", "zipcode"] },
       { name := "country", data_type := "string",
         common_source_names := ["country", "nation"] },
       { name := "gstin", data_type := "string",
         pattern := Option.some "^\\d{2}[A-Z]{5}\\d{4}[A-Z]{1}[A-Z\\d]{1}[Z]{1}[A-Z\\d]{1}$",
         common_source_names := ["gstin", "gst", "gst_no", "gstno", "gst_number"] }]
    required_columns := ["first_name"]
    unique_columns := ["email", "gstin"] }

/-- `get_schema`: the local map holds `generic_customer`; the additional
registry (`additional_schemas.SCHEMA_REGISTRY`, a data module) is an
explicit parameter. -/
def get_schema (registry : List (String × TargetSchema)) (name : String) :
    Option TargetSchema :=
  if pyLower name = "generic_customer" then Option.some GENERIC_CUSTOMER_SCHEMA
  else (registry.find? (fun kv => kv.1 = pyLower name)).map Prod.snd

/-- The observable actions of a run: every assignment to `job.status`,
every `_save_job` (with the snapshot it writes), and the invocations of
the engine, the validator, the code generator and the fallback
subprocess. -/
inductive Event where
  | statusSet (s : JobStatus)
  | saved (d : JobDict)
  | engineCalled
  | validatorCalled
  | codegenCalled
  | scriptExecuted
deriving Repr, DecidableEq

/-- A `subprocess.run` result. -/
structure SubpResult where
  returncode : Int
  stdout : String := ""
  stderr : String := ""
deriving Repr, DecidableEq

/-- The orchestrator's collaborators: the AI-backed agents, the loader,
the validator, the output sink, the code generator, the subprocess
runner and the filesystem probe, each an opaque interface per the spec;
`.error` is a raised exception with its message. -/
structure Orch where
  ext : Ext
  schemaRegistry : List (String × TargetSchema) := []
  detectorRun : String → Except String MultiTableAnalysis
  analystRun : String → Except String SourceSchemaAnalysis
  plannerRun : Option SourceSchemaAnalysis → TargetSchema → Except String TransformationPlan
  loaderExtract : String → TableBoundary → Nat → Except String Frame
  loaderFull : String → Except String Frame
  validatorRun : Frame → TargetSchema → Except String ValidationReport
  outputGenerate : Frame → ValidationReport → String → Except String String
  codegenRun : String → TargetSchema → SourceSchemaAnalysis → Except String String
  subprocessRun : String → Except String SubpResult
  outputExists : String → Bool
  outputDir : String := "output"
  outputDirParent : String := "."

/-- `Orchestrator._save_job`: stamp `updated_at`, write the snapshot. -/
def saveJob (job : TransformationJob) (clk : Nat) :
    TransformationJob × List Event × Nat :=
  let job' := { job with updated_at := clk }
  (job', [Event.saved job'.to_dict], clk + 1)

/-- `Path(p).stem`: the final path component without its last
extension. -/
def pathStem (p : String) : String :=
  let base := (pySplit p "/").getLastD p
  let parts := pySplit base "."
  match parts with
  | [] => base
  | [_] => base
  | _ =>
    let pre := pyJoin "." parts.dropLast
    if pre = "" then base else pre

/-- `Orchestrator._stage_detect_tables`. -/
def stageDetectTables (o : Orch) (job : TransformationJob) (clk : Nat) :
    TransformationJob × List Event × Nat :=
  let job := { job with status := .detecting_tables, updated_at := clk }
  let ev0 := [Event.statusSet .detecting_tables]
  let clk := clk + 1
  match o.detectorRun job.source_file with
  | .error e =>
    ({ job with
       status := .failed,
       error_message := Option.some ("Table detection failed: " ++ e) },
     ev0 ++ [Event.statusSet .failed], clk)
  | .ok mta =>
    let job := { job with multi_table_analysis := Option.some mta }
    match mta.tables with
    | [t] => ({ job with selected_table_id := Option.some t.table_id }, ev0, clk)
    | _ =>
      let targetSchema :=
        (get_schema o.schemaRegistry job.target_schema_name).getD GENERIC_CUSTOMER_SCHEMA
      let tmr := tableMatcherRun o.ext mta.tables targetSchema
      let job := { job with table_matching_result := Option.some tmr }
      let goodMatches := tmr.get_good_matches
      match goodMatches with
      | [gm] => ({ job with selected_table_id := Option.some gm.table_id }, ev0, clk)
      | _ =>
        if 1 < goodMatches.length then
          let prompt :=
            if tmr.user_prompt.getD "" ≠ "" then tmr.user_prompt.getD ""
            else "Which table do you want to transform?"
          ({ job with
             status := .selecting_table,
             pending_questions := [prompt] },
           ev0 ++ [Event.statusSet .selecting_table], clk)
        else if pyTruthyStr tmr.best_match_table_id then
          ({ job with selected_table_id := tmr.best_match_table_id }, ev0, clk)
        else
          ({ job with
             status := .failed,
             error_message := Option.some "No suitable tables found in file" },
           ev0 ++ [Event.statusSet .failed], clk)

/-- `Orchestrator._stage_analyze`. -/
def stageAnalyze (o : Orch) (job : TransformationJob) (clk : Nat) :
    TransformationJob × List Event × Nat :=
  let job := { job with status := .analyzing, updated_at := clk }
  let ev0 := [Event.statusSet .analyzing]
  let clk := clk + 1
  if pyTruthyStr job.selected_table_id ∧ job.multi_table_analysis.isSome then
    match (job.multi_table_analysis.getD {}).get_table_by_id
        (job.selected_table_id.getD "") with
    | Option.some selectedTable =>
      (match o.loaderExtract job.source_file selectedTable.boundary
          selectedTable.header_row with
       | .error e =>
         ({ job with
            status := .failed,
            error_message := Option.some ("Analysis failed: " ++ e) },
          ev0 ++ [Event.statusSet .failed], clk)
       | .ok tableDf =>
         let job := { job with selected_table_df := Option.some tableDf }
         match o.analystRun job.source_file with
         | .error e =>
           ({ job with
              status := .failed,
              error_message := Option.some ("Analysis failed: " ++ e) },
            ev0 ++ [Event.statusSet .failed], clk)
         | .ok ana =>
           let ana2 := { ana with
                         total_rows := tableDf.nRows,
                         total_columns := tableDf.length }
           ({ job with source_analysis := Option.some ana2 }, ev0, clk))
    | Option.none =>
      (match o.analystRun job.source_file with
       | .error e =>
         ({ job with
            status := .failed,
            error_message := Option.some ("Analysis failed: " ++ e) },
          ev0 ++ [Event.statusSet .failed], clk)
       | .ok ana => ({ job with source_analysis := Option.some ana }, ev0, clk))
  else
    match o.analystRun job.source_file with
    | .error e =>
      ({ job with
         status := .failed,
         error_message := Option.some ("Analysis failed: " ++ e) },
       ev0 ++ [Event.statusSet .failed], clk)
    | .ok ana => ({ job with source_analysis := Option.some ana }, ev0, clk)

/-- `Orchestrator._stage_plan`. -/
def stagePlan (o : Orch) (job : TransformationJob) (clk : Nat) :
    TransformationJob × List Event × Nat :=
  let job := { job with status := .planning, updated_at := clk }
  let ev0 := [Event.statusSet .planning]
  let clk := clk + 1
  let targetSchema :=
    (get_schema o.schemaRegistry job.target_schema_name).getD GENERIC_CUSTOMER_SCHEMA
  match o.plannerRun job.source_analysis targetSchema with
  | .error e =>
    ({ job with
       status := .failed,
       error_message := Option.some ("Planning failed: " ++ e) },
     ev0 ++ [Event.statusSet .failed], clk)
  | .ok plan =>
    let job := { job with transformation_plan := Option.some plan }
    if plan.requires_user_input then
      ({ job with
         status := .waiting_for_input, pending_questions := plan.user_questions },
       ev0 ++ [Event.statusSet .waiting_for_input], clk)
    else (job, ev0, clk)

/-- `Orchestrator._stage_execute`: retry-by-recursion up to
`max_retries` on any exception (a failing loader, or a missing plan),
then FAILED. -/
def stageExecute (o : Orch) (job : TransformationJob) (clk : Nat) :
    TransformationJob × List Event × Nat :=
  let job1 := { job with status := JobStatus.executing, updated_at := clk }
  let ev0 := [Event.statusSet .executing]
  let clk1 := clk + 1
  let dfE : Except String Frame :=
    if job.selected_table_df.isSome then .ok (job.selected_table_df.getD [])
    else o.loaderFull job.source_file
  match dfE with
  | .ok df =>
    (match job.transformation_plan with
     | Option.some plan =>
       let res := executeEngine o.ext df plan
       ({ job1 with result_df := Option.some res.1 }, ev0 ++ [Event.engineCalled], clk1)
     | Option.none =>
       if _hretry : job.retry_count < job.max_retries then
         let r := stageExecute o
           { job with
             status := JobStatus.executing, updated_at := clk,
             retry_count := job.retry_count + 1 } clk1
         (r.1, ev0 ++ r.2.1, r.2.2)
       else
         ({ job1 with
            status := .failed,
            error_message :=
              Option.some ("Execution failed: " ++
                "'NoneType' object has no attribute 'transformations'") },
          ev0 ++ [Event.statusSet .failed], clk1))
  | .error e =>
    if _hretry : job.retry_count < job.max_retries then
      let r := stageExecute o
        { job with
          status := JobStatus.executing, updated_at := clk,
          retry_count := job.retry_count + 1 } clk1
      (r.1, ev0 ++ r.2.1, r.2.2)
    else
      ({ job1 with
         status := .failed,
         error_message := Option.some ("Execution failed: " ++ e) },
       ev0 ++ [Event.statusSet .failed], clk1)
termination_by job.max_retries + 1 - job.retry_count
decreasing_by
  all_goals simp_wf
  all_goals omega

/-- `Orchestrator._stage_validate_and_output`. -/
def stageValidateOutput (o : Orch) (job : TransformationJob) (clk : Nat) :
    TransformationJob × List Event × Nat :=
  let job := { job with status := .validating, updated_at := clk }
  let ev0 := [Event.statusSet .validating]
  let clk := clk + 1
  match job.result_df with
  | Option.none =>
    ({ job with
       status := .failed,
       error_message := Option.some "Validation/Output failed: No result data to validate" },
     ev0 ++ [Event.statusSet .failed], clk)
  | Option.some resultDf =>
    let targetSchema :=
      (get_schema o.schemaRegistry job.target_schema_name).getD GENERIC_CUSTOMER_SCHEMA
    match o.validatorRun resultDf targetSchema with
    | .error e =>
      ({ job with
         status := .failed,
         error_message := Option.some ("Validation/Output failed: " ++ e) },
       ev0 ++ [Event.validatorCalled, Event.statusSet .failed], clk)
    | .ok report =>
      let job := { job with validation_report := Option.some report }
      let outputFilename :=
        pathStem job.source_file ++ "_transformed_" ++ job.job_id ++ ".xlsx"
      match o.outputGenerate resultDf report outputFilename with
      | .error e =>
        ({ job with
           status := .failed,
           error_message := Option.some ("Validation/Output failed: " ++ e) },
         ev0 ++ [Event.validatorCalled, Event.statusSet .failed], clk)
      | .ok outputPath =>
        ({ job with
           output_file := Option.some outputPath, status := .completed },
         ev0 ++ [Event.validatorCalled, Event.statusSet .completed], clk)

/-- `Orchestrator._stage_fallback_execution`: the code-generation
rescue.  A non-zero exit raises and so ends FAILED with the stderr
embedded; a zero exit with the expected output file missing ends
COMPLETED with an explanatory `error_message`. -/
def stageFallback (o : Orch) (job : TransformationJob) (clk : Nat) :
    TransformationJob × List Event × Nat :=
  let job := { job with status := JobStatus.executing, updated_at := clk }
  let ev0 := [Event.statusSet .executing]
  let clk := clk + 1
  match get_schema o.schemaRegistry job.target_schema_name with
  | Option.none =>
    ({ job with
       status := .failed,
       error_message :=
         Option.some ("Fallback failed: Unknown target schema: " ++
           job.target_schema_name) },
     ev0 ++ [Event.statusSet .failed], clk)
  | Option.some ts =>
    let anaE : Except String TransformationJob :=
      if job.source_analysis.isSome then .ok job
      else
        match o.analystRun job.source_file with
        | .ok a => .ok { job with source_analysis := Option.some a }
        | .error e => .error e
    match anaE with
    | .error e =>
      ({ job with
         status := .failed,
         error_message := Option.some ("Fallback failed: " ++ e) },
       ev0 ++ [Event.statusSet .failed], clk)
    | .ok job =>
      match o.codegenRun job.source_file ts (job.source_analysis.getD {}) with
      | .error e =>
        ({ job with
           status := .failed,
           error_message := Option.some ("Fallback failed: " ++ e) },
         ev0 ++ [Event.statusSet .failed], clk)
      | .ok _code =>
        let scriptPath := o.outputDirParent ++ "/fallback_" ++ job.job_id ++ ".py"
        match o.subprocessRun scriptPath with
        | .error e =>
          ({ job with
             status := .failed,
             error_message := Option.some ("Fallback failed: " ++ e) },
           ev0 ++ [Event.codegenCalled, Event.statusSet .failed], clk)
        | .ok res =>
          if res.returncode ≠ 0 then
            ({ job with
               status := .failed,
               error_message :=
                 Option.some
                   ("Fallback failed: Script execution failed: " ++ res.stderr) },
             ev0 ++ [Event.codegenCalled, Event.scriptExecuted,
                     Event.statusSet .failed], clk)
          else
            let expectedOutput := o.outputDir ++ "/" ++ ts.name ++ "_fallback.xlsx"
            if o.outputExists expectedOutput then
              ({ job with
                 output_file := Option.some expectedOutput, status := .completed },
               ev0 ++ [Event.codegenCalled, Event.scriptExecuted,
                       Event.statusSet .completed], clk)
            else
              ({ job with
                 status := .completed,
                 error_message :=
                   Option.some
                     "Script ran but output file not found at expected location" },
               ev0 ++ [Event.codegenCalled, Event.scriptExecuted,
                       Event.statusSet .completed], clk)

/-- `Orchestrator.run_job`.  Each `return job` inside the `try` block is
a direct return; only the fall-through after stage 4 reaches
`self._save_job(job)` (the stage methods catch their own exceptions, so
the top-level `except` is unreachable in this model). -/
def runJob (o : Orch) (job : TransformationJob) (clk : Nat) :
    TransformationJob × List Event × Nat :=
  let r0 :=
    if job.multi_table_analysis.isSome then (job, ([] : List Event), clk)
    else stageDetectTables o job clk
  if r0.1.status = .failed ∨ r0.1.status = .selecting_table then r0
  else
    let r1 := stageAnalyze o r0.1 r0.2.2
    if r1.1.status = .failed then (r1.1, r0.2.1 ++ r1.2.1, r1.2.2)
    else
      let r2 := stagePlan o r1.1 r1.2.2
      if r2.1.status = .waiting_for_input then
        (r2.1, r0.2.1 ++ r1.2.1 ++ r2.2.1, r2.2.2)
      else if r2.1.status = .failed then
        let r3 := stageFallback o r2.1 r2.2.2
        (r3.1, r0.2.1 ++ r1.2.1 ++ r2.2.1 ++ r3.2.1, r3.2.2)
      else if (match r2.1.transformation_plan with
               | Option.some p => decide (p.confidence_score < 1 / 2)
               | Option.none => false) then
        let r3 := stageFallback o r2.1 r2.2.2
        (r3.1, r0.2.1 ++ r1.2.1 ++ r2.2.1 ++ r3.2.1, r3.2.2)
      else
        let r4 := stageExecute o r2.1 r2.2.2
        if r4.1.status = .failed then
          let r3 := stageFallback o r4.1 r4.2.2
          (r3.1, r0.2.1 ++ r1.2.1 ++ r2.2.1 ++ r4.2.1 ++ r3.2.1, r3.2.2)
        else
          let r5 := stageValidateOutput o r4.1 r4.2.2
          let r6 := saveJob r5.1 r5.2.2
          (r6.1, r0.2.1 ++ r1.2.1 ++ r2.2.1 ++ r4.2.1 ++ r5.2.1 ++ r6.2.1, r6.2.2)

/-- `dict[k] = v` on the `user_answers` dict. -/
def assocSet (l : List (String × String)) (k v : String) : List (String × String) :=
  if l.any (fun kv => kv.1 = k) then
    l.map (fun kv => if kv.1 = k then (k, v) else kv)
  else l ++ [(k, v)]

/-- CPython `int(s)`. -/
def pyInt? (s : String) : Option Int :=
  let t := (pyTrim s).data
  let signAndRest : Int × List Char :=
    match t with
    | '-' :: r => (-1, r)
    | '+' :: r => (1, r)
    | _ => (1, t)
  if signAndRest.2 ≠ [] ∧ signAndRest.2.all Char.isDigit then
    Option.some (signAndRest.1 * (digitsToNat signAndRest.2 : Int))
  else Option.none

/-- `Orchestrator.select_table`: accept a 1-indexed ordinal or a literal
table id; an invalid selection returns the job unchanged; a valid one
clears `pending_questions` and resumes `run_job`. -/
def selectTable (o : Orch) (job : TransformationJob) (selection : String) (clk : Nat) :
    TransformationJob × List Event × Nat :=
  if job.status ≠ JobStatus.selecting_table then (job, [], clk)
  else
    match job.multi_table_analysis with
    | Option.none =>
      ({ job with
         status := .failed,
         error_message := Option.some "No tables detected for selection" },
       [Event.statusSet .failed], clk)
    | Option.some mta =>
      let tables := mta.tables
      let job :=
        match pyInt? selection with
        | Option.some n =>
          let idx := n - 1
          if 0 ≤ idx ∧ idx < (tables.length : Int) then
            { job with selected_table_id :=
                (tables.get? idx.toNat).map (fun t => t.table_id) }
          else job
        | Option.none =>
          match tables.find? (fun t => t.table_id = selection) with
          | Option.some _ => { job with selected_table_id := Option.some selection }
          | Option.none => job
      if ¬ pyTruthyStr job.selected_table_id then (job, [], clk)
      else runJob o { job with pending_questions := [] } clk

/-- `Orchestrator.answer_question`: table selection is delegated;
answers accumulate in `user_answers`; when every question has an answer
the questions are cleared and the pipeline re-runs from the top;
otherwise (and on a non-waiting job) the job is returned unchanged. -/
def answerQuestion (o : Orch) (job : TransformationJob) (questionIndex : Nat)
    (answer : String) (clk : Nat) : TransformationJob × List Event × Nat :=
  if job.status = JobStatus.selecting_table then selectTable o job answer clk
  else if job.status ≠ JobStatus.waiting_for_input then (job, [], clk)
  else
    let job :=
      if questionIndex < job.pending_questions.length then
        { job with
          user_answers :=
            assocSet job.user_answers
              (job.pending_questions.getD questionIndex "") answer }
      else job
    if job.pending_questions.length ≤ job.user_answers.length then
      runJob o { job with pending_questions := [] } clk
    else (job, [], clk)

/-- `Orchestrator.get_job` over an explicit store of written snapshots:
a missing file or an unreadable snapshot is `none`. -/
def getJob (store : List (String × JobDict)) (jobId : String) :
    Option TransformationJob :=
  match (store.find? (fun kv => kv.1 = jobId)).map Prod.snd with
  | Option.none => Option.none
  | Option.some d => TransformationJob.from_dict d

/-! ## Closed instances for evaluating the orchestrator model -/

/-- The job snapshots written in a trace, in write order. -/
def savedDicts (l : List Event) : List JobDict :=
  l.filterMap (fun e => match e with | Event.saved d => Option.some d | _ => Option.none)

/-- A concrete collaborator assembly: the detector raises, the analyst
succeeds with an empty analysis, the planner raises, code generation
succeeds, the subprocess exits 0, and the expected output file never
exists. -/
def orchBase : Orch :=
  { ext := extDefault
    schemaRegistry := []
    detectorRun := fun _ => Except.error "boom"
    analystRun := fun _ => Except.ok {}
    plannerRun := fun _ _ => Except.error "no plan"
    loaderExtract := fun _ _ _ => Except.ok []
    loaderFull := fun _ => Except.ok []
    validatorRun := fun _ _ => Except.ok {}
    outputGenerate := fun _ _ s => Except.ok s
    codegenRun := fun _ _ _ => Except.ok "code"
    subprocessRun := fun _ => Except.ok { returncode := 0 }
    outputExists := fun _ => false }

/-- A fresh job with the constructor's defaults. -/
def jobBase : TransformationJob :=
  { job_id := "j1", source_file := "input.xlsx" }

/-- A job whose source analysis is already attached, so the fallback
skips its re-analysis step. -/
def c1Job : TransformationJob := { jobBase with source_analysis := Option.some {} }

/-- Collaborators whose generated script exits 1 with stderr "tb". -/
def c1OrchFail : Orch :=
  { orchBase with subprocessRun := fun _ => Except.ok { returncode := 1, stderr := "tb" } }

/-- A plan the planner returns with zero confidence and no questions. -/
def c3Plan : TransformationPlan := { transformation_id := "p1", confidence_score := 0 }

/-- Collaborators whose planner succeeds with the zero-confidence plan. -/
def c3Orch : Orch := { orchBase with plannerRun := fun _ _ => Except.ok c3Plan }

/-- A job past table detection (analysis attached by the run itself). -/
def c3Job : TransformationJob := { jobBase with multi_table_analysis := Option.some {} }

/-- A job carrying analysis and table-selection state and a raised
retry budget, all of which the snapshot round trip loses. -/
def c7Job : TransformationJob :=
  { jobBase with
    source_analysis := Option.some {}
    selected_table_id := Option.some "t1"
    max_retries := 5 }

/-- A finished job. -/
def c9Job : TransformationJob := { jobBase with status := JobStatus.completed }

/-- A target schema with an optional column whose normalized name
collides with the required column `name`. -/
def c8Schema : TargetSchema :=
  { name := "C8"
    columns := [{ name := "Name" }, { name := "name", required := true }]
    required_columns := ["name"] }

/-- A detected table whose column names are exactly the required
column names of `c8Schema`. -/
def c8Table : DetectedTable := { table_id := "t1", column_names := ["name"] }

/-- A collision-free schema with a single required column. -/
def c8wSchema : TargetSchema :=
  { name := "W"
    columns := [{ name := "first_name", required := true }]
    required_columns := ["first_name"] }

/-- A table whose column names are exactly the required column names of
`c8wSchema`. -/
def c8wTable : DetectedTable := { table_id := "t1", column_names := ["first_name"] }

/-! ## Frame lemmas -/

theorem Frame.hasCol_iff {f : Frame} {c : String} :
    f.hasCol c = true ↔ ∃ kv ∈ f, kv.1 = c := by
  simp [Frame.hasCol, List.any_eq_true]

theorem Frame.getCol?_eq_none {f : Frame} {c : String}
    (h : f.hasCol c = false) : f.getCol? c = Option.none := by
  induction f with
  | nil => simp [Frame.getCol?]
  | cons kv rest ih =>
    simp only [Frame.hasCol, List.any_cons, Bool.or_eq_false_iff] at h
    have hk : ¬ kv.1 = c := by simpa using h.1
    simpa [Frame.getCol?, List.find?, hk] using ih (by simpa [Frame.hasCol] using h.2)

theorem Frame.getCol?_isSome_of_hasCol {f : Frame} {c : String}
    (h : f.hasCol c = true) : (f.getCol? c).isSome := by
  induction f with
  | nil => simp [Frame.hasCol] at h
  | cons kv rest ih =>
    by_cases hk : kv.1 = c
    · simp [Frame.getCol?, List.find?, hk]
    · simp only [Frame.hasCol, List.any_cons] at h
      have : Frame.hasCol rest c = true := by
        rcases Bool.or_eq_true_iff.1 h with h' | h'
        · exact absurd (by simpa using h') hk
        · simpa [Frame.hasCol] using h'
      simpa [Frame.getCol?, List.find?, hk] using ih this

theorem Frame.hasCol_of_getCol?_isSome {f : Frame} {c : String}
    (h : (f.getCol? c).isSome) : f.hasCol c = true := by
  by_contra hh
  rw [Frame.getCol?_eq_none (by simpa using hh)] at h
  simp at h

theorem Frame.getCol?_cons_eq {kv : String × List RVal} {rest : Frame} {c : String}
    (h : kv.1 = c) : Frame.getCol? (kv :: rest) c = Option.some kv.2 := by
  simp [Frame.getCol?, List.find?_cons_of_pos, h]

theorem Frame.getCol?_cons_ne {kv : String × List RVal} {rest : Frame} {c : String}
    (h : ¬ kv.1 = c) : Frame.getCol? (kv :: rest) c = Frame.getCol? rest c := by
  simp [Frame.getCol?, List.find?_cons_of_neg, h]

theorem Frame.getCol?_setCol_self (f : Frame) (c : String) (vs : List RVal) :
    (f.setCol c vs).getCol? c = Option.some vs := by
  induction f with
  | nil => simp [Frame.setCol, Frame.getCol?, List.find?]
  | cons kv rest ih =>
    by_cases hk : kv.1 = c
    · rw [Frame.setCol, if_pos hk, Frame.getCol?_cons_eq rfl]
    · rw [Frame.setCol, if_neg hk, Frame.getCol?_cons_ne hk, ih]

theorem Frame.getCol?_setCol_ne (f : Frame) {c d : String} (vs : List RVal)
    (hne : c ≠ d) : (f.setCol c vs).getCol? d = f.getCol? d := by
  induction f with
  | nil =>
    rw [Frame.setCol, Frame.getCol?_cons_ne hne]
  | cons kv rest ih =>
    by_cases hk : kv.1 = c
    · rw [Frame.setCol, if_pos hk, Frame.getCol?_cons_ne hne,
        Frame.getCol?_cons_ne (hk ▸ hne)]
    · by_cases hd : kv.1 = d
      · rw [Frame.setCol, if_neg hk, Frame.getCol?_cons_eq hd, Frame.getCol?_cons_eq hd]
      · rw [Frame.setCol, if_neg hk, Frame.getCol?_cons_ne hd, Frame.getCol?_cons_ne hd, ih]

theorem Frame.hasCol_setCol (f : Frame) (c d : String) (vs : List RVal) :
    (f.setCol c vs).hasCol d = (f.hasCol d || c = d) := by
  induction f with
  | nil => simp [Frame.setCol, Frame.hasCol, eq_comm]
  | cons kv rest ih =>
    by_cases hk : kv.1 = c
    · by_cases hd : c = d
      · simp [Frame.setCol, hk, Frame.hasCol, hd]
      · simp [Frame.setCol, hk, Frame.hasCol, hd, hk.symm ▸ hd]
    · simp only [Frame.setCol, hk, if_false, Frame.hasCol, List.any_cons]
      simp only [Frame.hasCol] at ih
      rw [ih]
      cases h1 : (decide (kv.1 = d)) <;> cases h2 : rest.any (fun kv => decide (kv.1 = d)) <;>
        cases h3 : (decide (c = d)) <;> simp

theorem Frame.setCol_ne_nil (f : Frame) (c : String) (vs : List RVal) :
    f.setCol c vs ≠ [] := by
  cases f with
  | nil => simp [Frame.setCol]
  | cons kv rest =>
    by_cases hk : kv.1 = c <;> simp [Frame.setCol, hk]

theorem Frame.mem_setCol {f : Frame} {c : String} {vs : List RVal} {p : String × List RVal}
    (h : p ∈ f.setCol c vs) : p = (c, vs) ∨ p ∈ f := by
  induction f with
  | nil => simpa [Frame.setCol] using h
  | cons kv rest ih =>
    by_cases hk : kv.1 = c
    · simp only [Frame.setCol, hk, if_true, List.mem_cons] at h
      rcases h with h | h
      · exact Or.inl h
      · exact Or.inr (List.mem_cons_of_mem _ h)
    · simp only [Frame.setCol, hk, if_false, List.mem_cons] at h
      rcases h with h | h
      · exact Or.inr (h ▸ List.mem_cons_self _ _)
      · rcases ih h with h' | h'
        · exact Or.inl h'
        · exact Or.inr (List.mem_cons_of_mem _ h')

theorem Frame.hasCol_append (f1 f2 : Frame) (c : String) :
    (f1 ++ f2).hasCol c = (f1.hasCol c || f2.hasCol c) := by
  simp [Frame.hasCol, List.any_append]

theorem Frame.getCol?_append_left {f1 : Frame} (f2 : Frame) {c : String} {vs : List RVal}
    (h : f1.getCol? c = Option.some vs) : (f1 ++ f2).getCol? c = Option.some vs := by
  induction f1 with
  | nil => simp [Frame.getCol?] at h
  | cons kv rest ih =>
    by_cases hk : kv.1 = c
    · rw [Frame.getCol?_cons_eq hk] at h
      rw [List.cons_append, Frame.getCol?_cons_eq hk, h]
    · rw [Frame.getCol?_cons_ne hk] at h
      rw [List.cons_append, Frame.getCol?_cons_ne hk, ih h]

theorem Frame.getCol?_mem {f : Frame} {c : String} {vs : List RVal}
    (h : f.getCol? c = Option.some vs) : ∃ name, (name, vs) ∈ f := by
  simp only [Frame.getCol?] at h
  obtain ⟨kv, hfind, hsnd⟩ := Option.map_eq_some'.1 h
  refine ⟨kv.1, ?_⟩
  have hkv : (kv.1, vs) = kv := by rw [← hsnd]
  rw [hkv]
  exact List.mem_of_find?_eq_some hfind

theorem Frame.emptyDF_append {t1 t2 : Frame} (h : t1 ≠ []) :
    (t1 ++ t2).emptyDF = t1.emptyDF := by
  cases t1 with
  | nil => exact absurd rfl h
  | cons kv rest => rfl

/-! ## `_apply_column_mappings` lemmas -/

/-- A mapping that assigns has a `direct` or `transform` action. -/
theorem mappingAssigned_action {df : Frame} {m : ColumnMapping}
    (h : (mappingAssigned df m).isSome) :
    m.action = "direct" ∨ m.action = "transform" := by
  by_cases h1 : m.action = "direct"
  · exact Or.inl h1
  · by_cases h2 : m.action = "transform"
    · exact Or.inr h2
    · rw [mappingAssigned, if_neg h1, if_neg h2] at h
      simp at h

/-- What a mapping assigns is one of the intermediate frame's columns. -/
theorem mappingAssigned_from_frame {df : Frame} {m : ColumnMapping} {vs : List RVal}
    (h : mappingAssigned df m = Option.some vs) :
    ∃ c, df.getCol? c = Option.some vs := by
  unfold mappingAssigned at h
  by_cases h1 : m.action = "direct"
  · rw [if_pos h1] at h
    cases hs : df.getCol? m.source_col with
    | some vs' =>
      rw [hs] at h
      exact ⟨m.source_col, hs.trans (by rw [Option.some.inj h])⟩
    | none =>
      rw [hs] at h
      exact ⟨m.target_col, h⟩
  · by_cases h2 : m.action = "transform"
    · rw [if_neg h1, if_pos h2] at h
      cases hs : df.getCol? m.target_col with
      | some vs' =>
        rw [hs] at h
        exact ⟨m.target_col, hs.trans (by rw [Option.some.inj h])⟩
      | none =>
        rw [hs] at h
        exact ⟨m.source_col, h⟩
    · rw [if_neg h1, if_neg h2] at h
      exact absurd h (by simp)

theorem projectMappings_nil (df : Frame) (acc : Frame) :
    projectMappings df [] acc = acc := rfl

theorem projectMappings_cons (df : Frame) (m : ColumnMapping) (ms : List ColumnMapping)
    (acc : Frame) :
    projectMappings df (m :: ms) acc =
      projectMappings df ms
        (match mappingAssigned df m with
         | Option.some vs => acc.setCol m.target_col vs
         | Option.none => acc) := rfl

theorem projectMappings_getCol?_of_no_assign {df : Frame} {ms : List ColumnMapping}
    {c : String} :
    ∀ acc : Frame, (∀ m ∈ ms, ¬ ((mappingAssigned df m).isSome ∧ m.target_col = c)) →
      (projectMappings df ms acc).getCol? c = acc.getCol? c := by
  induction ms with
  | nil => intro acc _; rfl
  | cons m ms ih =>
    intro acc h
    rw [projectMappings_cons]
    cases hm : mappingAssigned df m with
    | none => exact ih acc (fun m' hm' => h m' (List.mem_cons_of_mem _ hm'))
    | some vs =>
      have hne : m.target_col ≠ c := fun hc =>
        h m (List.mem_cons_self _ _) ⟨by simp [hm], hc⟩
      rw [ih _ (fun m' hm' => h m' (List.mem_cons_of_mem _ hm')),
        Frame.getCol?_setCol_ne _ _ hne]

theorem projectMappings_getCol?_unique {df : Frame} {ms : List ColumnMapping}
    {c : String} {vs : List RVal} :
    ∀ acc : Frame,
      (∀ m ∈ ms, (mappingAssigned df m).isSome → m.target_col = c →
        mappingAssigned df m = Option.some vs) →
      (∃ m ∈ ms, (mappingAssigned df m).isSome ∧ m.target_col = c) →
      (projectMappings df ms acc).getCol? c = Option.some vs := by
  induction ms with
  | nil =>
    intro acc _ h2
    obtain ⟨m, hm, _⟩ := h2
    simp at hm
  | cons m ms ih =>
    intro acc h1 h2
    by_cases htail : ∃ m' ∈ ms, (mappingAssigned df m').isSome ∧ m'.target_col = c
    · rw [projectMappings_cons]
      exact ih _ (fun m' hm' => h1 m' (List.mem_cons_of_mem _ hm')) htail
    · obtain ⟨m', hm', hsome, htc⟩ := h2
      have hmm : m' = m := by
        rcases List.mem_cons.1 hm' with h | h
        · exact h
        · exact absurd ⟨m', h, hsome, htc⟩ htail
      subst hmm
      have hass : mappingAssigned df m' = Option.some vs :=
        h1 m' (List.mem_cons_self _ _) hsome htc
      rw [projectMappings_cons, hass]
      rw [projectMappings_getCol?_of_no_assign _
        (fun m'' hm'' hc => htail ⟨m'', hm'', hc⟩)]
      rw [htc, Frame.getCol?_setCol_self]

theorem projectMappings_mem {df : Frame} {ms : List ColumnMapping}
    {p : String × List RVal} :
    ∀ {acc : Frame}, p ∈ projectMappings df ms acc →
      p ∈ acc ∨ ∃ m ∈ ms, mappingAssigned df m = Option.some p.2 := by
  induction ms with
  | nil => intro acc h; exact Or.inl h
  | cons m ms ih =>
    intro acc h
    rw [projectMappings_cons] at h
    cases hm : mappingAssigned df m with
    | none =>
      rw [hm] at h
      rcases ih h with h' | ⟨m', hm', ha⟩
      · exact Or.inl h'
      · exact Or.inr ⟨m', List.mem_cons_of_mem _ hm', ha⟩
    | some vs =>
      rw [hm] at h
      rcases ih h with h' | ⟨m', hm', ha⟩
      · rcases Frame.mem_setCol h' with h'' | h''
        · exact Or.inr ⟨m, List.mem_cons_self _ _, by rw [hm, h'']⟩
        · exact Or.inl h''
      · exact Or.inr ⟨m', List.mem_cons_of_mem _ hm', ha⟩

theorem projectMappings_hasCol_mono {df : Frame} {ms : List ColumnMapping} {c : String} :
    ∀ {acc : Frame}, acc.hasCol c = true → (projectMappings df ms acc).hasCol c = true := by
  induction ms with
  | nil => intro acc h; exact h
  | cons m ms ih =>
    intro acc h
    rw [projectMappings_cons]
    cases hm : mappingAssigned df m with
    | none => exact ih h
    | some vs => exact ih (by rw [Frame.hasCol_setCol, h, Bool.true_or])

theorem projectMappings_hasCol_of_assigned {df : Frame} {ms : List ColumnMapping}
    {m : ColumnMapping} :
    ∀ {acc : Frame}, m ∈ ms → (mappingAssigned df m).isSome →
      (projectMappings df ms acc).hasCol m.target_col = true := by
  induction ms with
  | nil => intro acc h _; simp at h
  | cons m0 ms ih =>
    intro acc hm hs
    rcases List.mem_cons.1 hm with h | h
    · subst h
      obtain ⟨vs, hvs⟩ := Option.isSome_iff_exists.1 hs
      rw [projectMappings_cons, hvs]
      exact projectMappings_hasCol_mono
        (by rw [Frame.hasCol_setCol]; simp)
    · rw [projectMappings_cons]
      exact ih h hs

theorem projectMappings_hasCol_inv {df : Frame} {ms : List ColumnMapping} {c : String} :
    ∀ {acc : Frame}, (projectMappings df ms acc).hasCol c = true →
      acc.hasCol c = true ∨ ∃ m ∈ ms, (mappingAssigned df m).isSome ∧ m.target_col = c := by
  induction ms with
  | nil => intro acc h; exact Or.inl h
  | cons m ms ih =>
    intro acc h
    rw [projectMappings_cons] at h
    cases hm : mappingAssigned df m with
    | none =>
      rw [hm] at h
      rcases ih h with h' | ⟨m', hm', hp⟩
      · exact Or.inl h'
      · exact Or.inr ⟨m', List.mem_cons_of_mem _ hm', hp⟩
    | some vs =>
      rw [hm] at h
      rcases ih h with h' | ⟨m', hm', hp⟩
      · rw [Frame.hasCol_setCol] at h'
        rcases Bool.or_eq_true_iff.1 h' with h'' | h''
        · exact Or.inl h''
        · exact Or.inr ⟨m, List.mem_cons_self _ _, by simp [hm], by simpa using h''⟩
      · exact Or.inr ⟨m', List.mem_cons_of_mem _ hm', hp⟩

theorem appendEnrichmentCols_cons (plan : TransformationPlan) (kv : String × List RVal)
    (dfrest : Frame) (acc : Frame) :
    appendEnrichmentCols plan (kv :: dfrest) acc =
      appendEnrichmentCols plan dfrest
        (if ¬ (plan.column_mappings.map (fun m => m.target_col)).contains kv.1 ∧
            ¬ acc.hasCol kv.1 ∧
            plan.enrichments.any (fun e => e.target_cols.contains kv.1) then
          acc ++ [kv]
        else acc) := rfl

theorem appendEnrichmentCols_spec (plan : TransformationPlan) (df : Frame) :
    ∀ acc : Frame, ∃ rest : Frame,
      appendEnrichmentCols plan df acc = acc ++ rest ∧
      ∀ p ∈ rest, p ∈ df ∧
        (plan.column_mappings.map (fun m => m.target_col)).contains p.1 = false := by
  induction df with
  | nil =>
    intro acc
    exact ⟨[], by simp [appendEnrichmentCols], by simp⟩
  | cons kv dfrest ih =>
    intro acc
    rw [appendEnrichmentCols_cons]
    split
    case isTrue h =>
      obtain ⟨r, hr, hp⟩ := ih (acc ++ [kv])
      refine ⟨kv :: r, by rw [hr, List.append_assoc]; rfl, ?_⟩
      intro p hp'
      rcases List.mem_cons.1 hp' with h' | h'
      · subst h'
        exact ⟨List.mem_cons_self _ _, by simpa using h.1⟩
      · obtain ⟨h1, h2⟩ := hp p h'
        exact ⟨List.mem_cons_of_mem _ h1, h2⟩
    case isFalse h =>
      obtain ⟨r, hr, hp⟩ := ih acc
      refine ⟨r, hr, ?_⟩
      intro p hp'
      obtain ⟨h1, h2⟩ := hp p hp'
      exact ⟨List.mem_cons_of_mem _ h1, h2⟩

/-- `uniformB` gives every column the frame's row count. -/
theorem uniform_getCol?_length {df : Frame} {vs : List RVal}
    (huni : df.uniformB = true) (h : ∃ c, df.getCol? c = Option.some vs) :
    vs.length = df.nRows := by
  obtain ⟨c, hc⟩ := h
  obtain ⟨name, hmem⟩ := Frame.getCol?_mem hc
  have := (List.all_eq_true.1 huni) _ hmem
  simpa using this

/-! ## Claims about the Function Registry -/

/-- C5: every function registered by `_register_all_functions`, called with
null (`None`/`NaN`) or empty-string input and default parameters, returns
(never raises: the call is `.ok`) its null-input sentinel; in particular
`NORMALIZE_CURRENCY(None) == None`, `UPPERCASE(None) == ""` and
`SPLIT_FULL_NAME("") == {first_name: "", middle_name: "", last_name: ""}`
(braces elided).  The sentinel of each function at each of the three
inputs `None`, `NaN`, `""` is spelled out. -/
theorem c5_registry_null_totality : ∀ ext : Ext,
    (∀ v : RVal, pyIsNA v = true →
      registryExecute ext "SPLIT_FULL_NAME" v {} {} = .ok splitNameEmpty ∧
      registryExecute ext "REGEX_EXTRACT" v {} {} = .ok (.scalar (.str "")) ∧
      registryExecute ext "CLEAN_WHITESPACE" v {} {} = .ok (.scalar (.str "")) ∧
      registryExecute ext "SMART_DATE_PARSE" v {} {} = .ok (.scalar .none) ∧
      registryExecute ext "FORMAT_DATE" v {} {} = .ok (.scalar (.str "")) ∧
      registryExecute ext "NORMALIZE_CURRENCY" v {} {} = .ok (.scalar .none) ∧
      registryExecute ext "MAP_VALUES" v {} {} = .ok (.scalar (.str "")) ∧
      registryExecute ext "CONDITIONAL_FILL" v {} {} = .ok (.scalar (.str "")) ∧
      registryExecute ext "LOOKUP_PINCODE" v {} {} =
        .ok (.rdict [("city", .str ""), ("state", .str ""), ("country", .str "")]) ∧
      registryExecute ext "VALIDATE_GSTIN" v {} {} =
        .ok (.rdict [("is_valid", .bool false), ("state_code", .str ""), ("pan", .str ""),
                     ("error", .str "Empty value")]) ∧
      registryExecute ext "VALIDATE_EMAIL" v {} {} =
        .ok (.rdict [("is_valid", .bool false), ("normalized", .str ""),
                     ("error", .str "Empty value")]) ∧
      registryExecute ext "NORMALIZE_PHONE" v {} {} = .ok (.scalar (.str "")) ∧
      registryExecute ext "UPPERCASE" v {} {} = .ok (.scalar (.str "")) ∧
      registryExecute ext "LOWERCASE" v {} {} = .ok (.scalar (.str "")) ∧
      registryExecute ext "TITLECASE" v {} {} = .ok (.scalar (.str "")) ∧
      registryExecute ext "TRIM" v {} {} = .ok (.scalar (.str "")) ∧
      registryExecute ext "CONCATENATE" v {} {} = .ok (.scalar (.str "")) ∧
      registryExecute ext "COMPUTE_DATE_DIFF" v {} {} = .ok (.scalar .none)) ∧
    (registryExecute ext "SPLIT_FULL_NAME" (.scalar (.str "")) {} {} = .ok splitNameEmpty ∧
     registryExecute ext "REGEX_EXTRACT" (.scalar (.str "")) {} {} = .ok (.scalar (.str "")) ∧
     registryExecute ext "CLEAN_WHITESPACE" (.scalar (.str "")) {} {} = .ok (.scalar (.str "")) ∧
     registryExecute ext "SMART_DATE_PARSE" (.scalar (.str "")) {} {} = .ok (.scalar .none) ∧
     registryExecute ext "FORMAT_DATE" (.scalar (.str "")) {} {} = .ok (.scalar (.str "")) ∧
     registryExecute ext "NORMALIZE_CURRENCY" (.scalar (.str "")) {} {} = .ok (.scalar .none) ∧
     registryExecute ext "MAP_VALUES" (.scalar (.str "")) {} {} = .ok (.scalar (.str "")) ∧
     registryExecute ext "CONDITIONAL_FILL" (.scalar (.str "")) {} {} =
       .ok (.scalar (.str "")) ∧
     registryExecute ext "LOOKUP_PINCODE" (.scalar (.str "")) {} {} =
       .ok (.rdict [("city", .str ""), ("state", .str ""), ("country", .str "India")]) ∧
     registryExecute ext "VALIDATE_GSTIN" (.scalar (.str "")) {} {} =
       .ok (.rdict [("is_valid", .bool false), ("state_code", .str ""), ("pan", .str ""),
                    ("error", .str "Invalid length: 0 (expected 15)")]) ∧
     registryExecute ext "VALIDATE_EMAIL" (.scalar (.str "")) {} {} =
       .ok (.rdict [("is_valid", .bool false), ("normalized", .str ""),
                    ("error", .str "Invalid email format")]) ∧
     registryExecute ext "NORMALIZE_PHONE" (.scalar (.str "")) {} {} = .ok (.scalar (.str "")) ∧
     registryExecute ext "UPPERCASE" (.scalar (.str "")) {} {} = .ok (.scalar (.str "")) ∧
     registryExecute ext "LOWERCASE" (.scalar (.str "")) {} {} = .ok (.scalar (.str "")) ∧
     registryExecute ext "TITLECASE" (.scalar (.str "")) {} {} = .ok (.scalar (.str "")) ∧
     registryExecute ext "TRIM" (.scalar (.str "")) {} {} = .ok (.scalar (.str "")) ∧
     registryExecute ext "CONCATENATE" (.scalar (.str "")) {} {} = .ok (.scalar (.str "")) ∧
     registryExecute ext "COMPUTE_DATE_DIFF" (.scalar (.str "")) {} {} = .ok (.scalar .none)) := by
  intro ext
  constructor
  · intro v hv
    have hv' : v = .scalar .none ∨ v = .scalar .nan := by
      cases v with
      | scalar w => cases w <;> simp_all [pyIsNA]
      | rdict d => simp [pyIsNA] at hv
    rcases hv' with h | h <;> subst h <;>
      exact ⟨rfl, rfl, rfl, rfl, rfl, rfl, rfl, rfl, rfl, rfl, rfl, rfl, rfl, rfl, rfl, rfl,
             rfl, rfl⟩
  · exact ⟨rfl, rfl, rfl, rfl, rfl, rfl, rfl, rfl, rfl, rfl, rfl, rfl, rfl, rfl, rfl, rfl,
           rfl, rfl⟩

/-- The rational value `normalize_currency` produces for `"₹ 15,000.50"`. -/
theorem partsToRat_rupee : partsToRat (false, 15000, 50, 2, 0) = 30001 / 2 := by
  norm_num [partsToRat]

/-- The rational value `normalize_currency` produces for `"Rs.25,000"`:
the symbol loop replaces `"Rs"` before `"Rs."` ever applies, leaving
`".25,000"`, hence `".25000"`, hence `1/4`. -/
theorem partsToRat_rs : partsToRat (false, 0, 25000, 5, 0) = 1 / 4 := by
  norm_num [partsToRat]

/-- The rational value `normalize_currency` produces for `"(500)"`. -/
theorem partsToRat_paren : partsToRat (true, 500, 0, 0, 0) = -500 := by
  norm_num [partsToRat]

/-- C6: the currency normalizer's round-trip examples, evaluated on the
code.  `"₹ 15,000.50"` and `"(500)"` give the spec's values, but
`NORMALIZE_CURRENCY("Rs.25,000")` returns `0.25`, not the `25000.0` both
the spec and the repository's own test
(`tests/test_function_registry.py::test_normalize_currency_rs`) state:
the symbol list replaces `"Rs"` before `"Rs."`, turning `"Rs.25,000"`
into `".25,000"` and then `".25000"`. -/
theorem c6_currency_roundtrip_bug :
    registryExecute extDefault "NORMALIZE_CURRENCY" (.scalar (.str "₹ 15,000.50")) {} {} =
      .ok (.scalar (.float (30001 / 2))) ∧
    registryExecute extDefault "NORMALIZE_CURRENCY" (.scalar (.str "Rs.25,000")) {} {} =
      .ok (.scalar (.float (1 / 4))) ∧
    (1 / 4 : ℚ) ≠ 25000 ∧
    registryExecute extDefault "NORMALIZE_CURRENCY" (.scalar (.str "(500)")) {} {} =
      .ok (.scalar (.float (-500))) := by
  refine ⟨?_, ?_, by norm_num, ?_⟩
  · calc registryExecute extDefault "NORMALIZE_CURRENCY" (.scalar (.str "₹ 15,000.50")) {} {}
        = .ok (.scalar (.float (partsToRat (false, 15000, 50, 2, 0)))) := rfl
      _ = .ok (.scalar (.float (30001 / 2))) := by rw [partsToRat_rupee]
  · calc registryExecute extDefault "NORMALIZE_CURRENCY" (.scalar (.str "Rs.25,000")) {} {}
        = .ok (.scalar (.float (partsToRat (false, 0, 25000, 5, 0)))) := rfl
      _ = .ok (.scalar (.float (1 / 4))) := by rw [partsToRat_rs]
  · calc registryExecute extDefault "NORMALIZE_CURRENCY" (.scalar (.str "(500)")) {} {}
        = .ok (.scalar (.float (partsToRat (true, 500, 0, 0, 0)))) := rfl
      _ = .ok (.scalar (.float (-500))) := by rw [partsToRat_paren]

/-! ## Claims about the Execution Engine -/

/-- C4 counterexample: the claim fails on the code on three concrete
(table, plan) pairs.  (1) A plan whose only mapping is `skip` makes the
projection empty, so `_apply_column_mappings` falls back to the full
intermediate frame and the skip target survives in the output.  (2) A
transformation whose `output_col` defaults to its `input_col` overwrites
the source column, so a `direct` mapping copies the transformed values,
not the input table's.  (3) A later mapping with the same `target_col`
overwrites an earlier `direct` mapping. -/
theorem c4_column_mapping_counterexample :
    ((executeEngine extDefault [("A", [.scalar (.str "x")])]
        { column_mappings := [{ source_col := "A", target_col := "A",
                                action := "skip" }] }).1
      = [("A", [.scalar (.str "x")])] ∧
     Frame.hasCol [("A", [RVal.scalar (.str "x")])] "A" = true) ∧
    ((executeEngine extDefault [("a", [.scalar (.str "x")])]
        { column_mappings := [{ source_col := "a", target_col := "A" }],
          transformations := [{ id := "t1", function := "UPPERCASE",
                                input_col := Option.some "a" }] }).1
      = [("A", [.scalar (.str "X")])] ∧
     RVal.scalar (.str "X") ≠ RVal.scalar (.str "x")) ∧
    (executeEngine extDefault [("a", [.scalar (.str "x")]), ("b", [.scalar (.str "y")])]
        { column_mappings := [{ source_col := "a", target_col := "T" },
                              { source_col := "b", target_col := "T" }] }).1
      = [("T", [.scalar (.str "y")])] := by
  exact ⟨⟨rfl, rfl⟩, ⟨rfl, by decide⟩, rfl⟩

/-- C4 (amended): over the intermediate frame (after transformations and
enrichments) rather than the raw input table, and for plans whose
non-skip mappings have pairwise-distinct targets and materialize at
least one column of a non-degenerate frame: every `direct` mapping whose
`source_col` exists in the intermediate frame yields `target_col` with
exactly that column's values, and every `skip` mapping whose
`target_col` is shared with no non-skip mapping is absent from the
output. -/
theorem c4_column_mapping_amended (ext : Ext) (df : Frame) (plan : TransformationPlan)
    (hnodup : (nonSkipTargets plan).Nodup)
    (huni : (interFrame ext df plan).uniformB = true)
    (hrows : 0 < (interFrame ext df plan).nRows)
    (hmat : ∃ m' ∈ plan.column_mappings,
      (mappingAssigned (interFrame ext df plan) m').isSome) :
    (∀ m ∈ plan.column_mappings, m.action = "direct" →
      ∀ vs, (interFrame ext df plan).getCol? m.source_col = Option.some vs →
        ((executeEngine ext df plan).1).getCol? m.target_col = Option.some vs) ∧
    (∀ m ∈ plan.column_mappings, m.action = "skip" →
      (∀ m' ∈ plan.column_mappings, m'.action ≠ "skip" →
        m'.target_col ≠ m.target_col) →
      ((executeEngine ext df plan).1).hasCol m.target_col = false) := by
  have hexec : (executeEngine ext df plan).1 =
      applyColumnMappings (interFrame ext df plan) plan := rfl
  set df2 := interFrame ext df plan with hdf2def
  -- distinct non-skip targets make assigning mappings unique per target
  have huniq : ∀ m ∈ plan.column_mappings, ∀ m' ∈ plan.column_mappings,
      (mappingAssigned df2 m).isSome → (mappingAssigned df2 m').isSome →
      m.target_col = m'.target_col → m = m' := by
    intro m hm m' hm' hs hs' ht
    have hns : m.action ≠ "skip" := by
      rcases mappingAssigned_action hs with h | h <;> simp [h]
    have hns' : m'.action ≠ "skip" := by
      rcases mappingAssigned_action hs' with h | h <;> simp [h]
    have hmf : m ∈ plan.column_mappings.filter (fun m => m.action ≠ "skip") :=
      List.mem_filter.2 ⟨hm, by simpa using hns⟩
    have hmf' : m' ∈ plan.column_mappings.filter (fun m => m.action ≠ "skip") :=
      List.mem_filter.2 ⟨hm', by simpa using hns'⟩
    exact List.inj_on_of_nodup_map hnodup hmf hmf' ht
  -- the projection resolves each materializing mapping's target
  have hproj : ∀ m ∈ plan.column_mappings, ∀ vs,
      mappingAssigned df2 m = Option.some vs →
      (projectMappings df2 plan.column_mappings []).getCol? m.target_col =
        Option.some vs := by
    intro m hm vs hass
    apply projectMappings_getCol?_unique
    · intro m' hm' hs' ht'
      rw [huniq m' hm' m hm hs' (by simp [hass]) ht', hass]
    · exact ⟨m, hm, by simp [hass], rfl⟩
  -- the projection is a non-empty frame, so the fallback is not taken
  obtain ⟨m0, hm0, hs0⟩ := hmat
  have ht1has :=
    @projectMappings_hasCol_of_assigned df2 plan.column_mappings m0 [] hm0 hs0
  have ht1ne : projectMappings df2 plan.column_mappings [] ≠ [] := by
    intro h
    rw [h] at ht1has
    simp [Frame.hasCol] at ht1has
  obtain ⟨rest, hrest, hrestp⟩ :=
    appendEnrichmentCols_spec plan df2 (projectMappings df2 plan.column_mappings [])
  have hempty : (appendEnrichmentCols plan df2
      (projectMappings df2 plan.column_mappings [])).emptyDF = false := by
    rw [hrest, Frame.emptyDF_append ht1ne]
    cases ht1 : projectMappings df2 plan.column_mappings [] with
    | nil => exact absurd ht1 ht1ne
    | cons x t =>
      have hx : x ∈ projectMappings df2 plan.column_mappings [] := by
        rw [ht1]; exact List.mem_cons_self _ _
      rcases projectMappings_mem hx with h' | ⟨m', _, ha⟩
      · simp at h'
      · have hlen : x.2.length = df2.nRows :=
          uniform_getCol?_length huni (mappingAssigned_from_frame ha)
        have : x.2 ≠ [] := by
          intro hnil
          rw [hnil] at hlen
          simp at hlen
          omega
        simp [Frame.emptyDF, List.isEmpty_iff, this]
  have hout : (executeEngine ext df plan).1 =
      appendEnrichmentCols plan df2 (projectMappings df2 plan.column_mappings []) := by
    rw [hexec]
    simp [applyColumnMappings, hempty]
  constructor
  · -- direct mappings
    intro m hm hdir vs hsrc
    have hass : mappingAssigned df2 m = Option.some vs := by
      rw [mappingAssigned, if_pos hdir, hsrc]
    rw [hout, hrest]
    exact Frame.getCol?_append_left _ (hproj m hm vs hass)
  · -- skip mappings
    intro m hm hskip hnoshare
    rw [hout, hrest, Frame.hasCol_append]
    have h1 : (projectMappings df2 plan.column_mappings []).hasCol m.target_col = false := by
      by_contra hh
      rcases projectMappings_hasCol_inv (by simpa using hh) with h' | ⟨m', hm', hs', ht'⟩
      · simp [Frame.hasCol] at h'
      · have : m'.action ≠ "skip" := by
          rcases mappingAssigned_action hs' with h | h <;> simp [h]
        exact hnoshare m' hm' this ht'
    have h2 : Frame.hasCol rest m.target_col = false := by
      by_contra hh
      obtain ⟨kv, hkv, hname⟩ := Frame.hasCol_iff.1 (by simpa using hh)
      have hc := (hrestp kv hkv).2
      rw [hname] at hc
      have hmem : m.target_col ∈ plan.column_mappings.map (fun m => m.target_col) :=
        List.mem_map_of_mem _ hm
      have : (plan.column_mappings.map (fun m => m.target_col)).contains
          m.target_col = true := by
        simpa [List.contains] using List.elem_eq_true_of_mem hmem
      rw [this] at hc
      simp at hc
    rw [h1, h2]
    rfl

/-- C10: at the heap level, `ExecutionEngine.execute` reads the caller's
frame once, copies it, and writes only the fresh copy: the caller's
object is unchanged after execution, for every plan. -/
theorem c10_execute_preserves_input (ext : Ext) (st : Store) (i : Nat)
    (plan : TransformationPlan) (h : i < st.length) :
    ((executeEngineStore ext st i plan).1)[i]? = st[i]? := by
  unfold executeEngineStore
  simp only
  rw [List.getElem?_set_ne (by omega), List.getElem?_append, if_pos h]

/-- C10 witness: a concrete store and plan. -/
theorem c10_execute_preserves_input_witness :
    (0 : Nat) < ([[("A", [RVal.scalar (.str "x")])]] : Store).length ∧
    ((executeEngineStore extDefault [[("A", [RVal.scalar (.str "x")])]] 0
        { column_mappings := [{ source_col := "A", target_col := "B" }] }).1)[0]? =
      ([[("A", [RVal.scalar (.str "x")])]] : Store)[0]? :=
  ⟨by decide,
   c10_execute_preserves_input extDefault [[("A", [RVal.scalar (.str "x")])]] 0
     { column_mappings := [{ source_col := "A", target_col := "B" }] } (by decide)⟩

/-- C4 witness: the amended statement applied at a concrete frame and
plan (one direct mapping `a → A` materializing, one skip mapping
`s → S`). -/
theorem c4_column_mapping_amended_witness :
    ((nonSkipTargets { column_mappings :=
        [{ source_col := "a", target_col := "A" },
         { source_col := "s", target_col := "S", action := "skip" }] }).Nodup ∧
     (interFrame extDefault [("a", [RVal.scalar (.str "x")])]
        { column_mappings :=
          [{ source_col := "a", target_col := "A" },
           { source_col := "s", target_col := "S", action := "skip" }] }).uniformB = true ∧
     0 < (interFrame extDefault [("a", [RVal.scalar (.str "x")])]
        { column_mappings :=
          [{ source_col := "a", target_col := "A" },
           { source_col := "s", target_col := "S", action := "skip" }] }).nRows ∧
     (∃ m' ∈ ({ column_mappings :=
          [{ source_col := "a", target_col := "A" },
           { source_col := "s", target_col := "S", action := "skip" }] } :
            TransformationPlan).column_mappings,
        (mappingAssigned (interFrame extDefault [("a", [RVal.scalar (.str "x")])]
          { column_mappings :=
            [{ source_col := "a", target_col := "A" },
             { source_col := "s", target_col := "S", action := "skip" }] }) m').isSome)) ∧
    ((∀ m ∈ ({ column_mappings :=
          [{ source_col := "a", target_col := "A" },
           { source_col := "s", target_col := "S", action := "skip" }] } :
            TransformationPlan).column_mappings, m.action = "direct" →
        ∀ vs, (interFrame extDefault [("a", [RVal.scalar (.str "x")])]
            { column_mappings :=
              [{ source_col := "a", target_col := "A" },
               { source_col := "s", target_col := "S", action := "skip" }] }).getCol?
            m.source_col = Option.some vs →
          ((executeEngine extDefault [("a", [RVal.scalar (.str "x")])]
              { column_mappings :=
                [{ source_col := "a", target_col := "A" },
                 { source_col := "s", target_col := "S", action := "skip" }] }).1).getCol?
            m.target_col = Option.some vs) ∧
     (∀ m ∈ ({ column_mappings :=
          [{ source_col := "a", target_col := "A" },
           { source_col := "s", target_col := "S", action := "skip" }] } :
            TransformationPlan).column_mappings, m.action = "skip" →
        (∀ m' ∈ ({ column_mappings :=
            [{ source_col := "a", target_col := "A" },
             { source_col := "s", target_col := "S", action := "skip" }] } :
              TransformationPlan).column_mappings, m'.action ≠ "skip" →
          m'.target_col ≠ m.target_col) →
        ((executeEngine extDefault [("a", [RVal.scalar (.str "x")])]
            { column_mappings :=
              [{ source_col := "a", target_col := "A" },
               { source_col := "s", target_col := "S", action := "skip" }] }).1).hasCol
          m.target_col = false)) :=
  ⟨⟨by decide, by decide, by decide, by decide⟩,
   c4_column_mapping_amended extDefault [("a", [RVal.scalar (.str "x")])]
     { column_mappings :=
       [{ source_col := "a", target_col := "A" },
        { source_col := "s", target_col := "S", action := "skip" }] }
     (by decide) (by decide) (by decide) (by decide)⟩

/-! ## Orchestrator lemmas and claims C1, C7, C9 -/

theorem jobStatusOfString_value (s : JobStatus) :
    jobStatusOfString s.value = Option.some s := by
  cases s <;> rfl

/-- C1 counterexample: with the schema known, analysis attached, code
generation succeeding and the generated script exiting 0 while the
conventionally-named output file does not exist, the fallback ends the
job COMPLETED (with an explanatory message), not FAILED as claimed. -/
theorem c1_fallback_missing_output_counterexample :
    (stageFallback orchBase c1Job 0).1.status = JobStatus.completed
    ∧ (stageFallback orchBase c1Job 0).1.status ≠ JobStatus.failed
    ∧ (stageFallback orchBase c1Job 0).1.error_message
        = Option.some "Script ran but output file not found at expected location" :=
  ⟨rfl, by decide, rfl⟩

/-- C1 (amended): in the code-generation fallback, a non-zero exit code
ends the job FAILED with the captured stderr embedded in the error
message, but a zero exit with the expected output file
(`<schema name>_fallback.xlsx` under the output directory) missing ends
the job COMPLETED with a fixed explanatory `error_message` — not
FAILED. -/
theorem c1_fallback_outcomes (o : Orch) (job : TransformationJob) (clk : Nat)
    (ts : TargetSchema) (code : String) (res : SubpResult)
    (hts : get_schema o.schemaRegistry job.target_schema_name = Option.some ts)
    (hana : job.source_analysis.isSome = true)
    (hcode : o.codegenRun job.source_file ts (job.source_analysis.getD {}) = Except.ok code)
    (hsub : o.subprocessRun (o.outputDirParent ++ "/fallback_" ++ job.job_id ++ ".py")
        = Except.ok res) :
    (res.returncode ≠ 0 →
      (stageFallback o job clk).1.status = JobStatus.failed
      ∧ (stageFallback o job clk).1.error_message
          = Option.some ("Fallback failed: Script execution failed: " ++ res.stderr))
    ∧ (res.returncode = 0 →
       o.outputExists (o.outputDir ++ "/" ++ ts.name ++ "_fallback.xlsx") = false →
       (stageFallback o job clk).1.status = JobStatus.completed
       ∧ (stageFallback o job clk).1.error_message
           = Option.some "Script ran but output file not found at expected location") := by
  simp only [stageFallback, hts, hana, if_true, hcode, hsub]
  constructor
  · intro h
    rw [if_pos h]
    exact ⟨by trivial, by trivial⟩
  · intro h0 hex
    rw [if_neg (by simp [h0]), hex]
    simp only [Bool.false_eq_true, if_false]
    exact ⟨by trivial, by trivial⟩

theorem c1_fallback_outcomes_witness :
    (stageFallback c1OrchFail c1Job 0).1.status = JobStatus.failed
    ∧ (stageFallback c1OrchFail c1Job 0).1.error_message
        = Option.some ("Fallback failed: Script execution failed: " ++ "tb") :=
  (c1_fallback_outcomes c1OrchFail c1Job 0 GENERIC_CUSTOMER_SCHEMA "code"
      { returncode := 1, stderr := "tb" } rfl rfl rfl rfl).1 (by decide)

/-- C7 counterexample: a job with `source_analysis`, a selected table
and a raised retry budget does not survive the snapshot round trip. -/
theorem c7_roundtrip_counterexample :
    TransformationJob.from_dict (TransformationJob.to_dict c7Job) ≠ Option.some c7Job := by
  decide

/-- C7 (amended): loading a persisted job back restores the primitive
fields and the nested `transformation_plan` / `validation_report`, but
drops `source_analysis` (serialized yet never restored), the entire
table-selection state (`multi_table_analysis`, `table_matching_result`,
`selected_table_id` — never serialized), the transient data frames, and
resets `max_retries` to the constructor default 3. -/
theorem c7_roundtrip_amended (job : TransformationJob) :
    getJob [(job.job_id, job.to_dict)] job.job_id =
      Option.some { job with
        source_analysis := Option.none
        multi_table_analysis := Option.none
        table_matching_result := Option.none
        selected_table_id := Option.none
        max_retries := 3
        selected_table_df := Option.none
        result_df := Option.none } := by
  have h : TransformationJob.from_dict job.to_dict = Option.some { job with
      source_analysis := Option.none
      multi_table_analysis := Option.none
      table_matching_result := Option.none
      selected_table_id := Option.none
      max_retries := 3
      selected_table_df := Option.none
      result_df := Option.none } := by
    simp only [TransformationJob.from_dict, TransformationJob.to_dict]
    rw [jobStatusOfString_value]
  simp only [getJob]
  rw [List.find?_cons_of_pos _ (by simp)]
  exact h

/-! ### Per-stage event inventories -/

theorem stageDetectTables_events (o : Orch) (j : TransformationJob) (c : Nat) :
    ∀ e ∈ (stageDetectTables o j c).2.1,
      e = Event.statusSet JobStatus.detecting_tables
      ∨ e = Event.statusSet JobStatus.selecting_table
      ∨ e = Event.statusSet JobStatus.failed := by
  intro e he
  simp only [stageDetectTables] at he
  repeat' split at he
  all_goals simp_all
  all_goals tauto

theorem stageAnalyze_events (o : Orch) (j : TransformationJob) (c : Nat) :
    ∀ e ∈ (stageAnalyze o j c).2.1,
      e = Event.statusSet JobStatus.analyzing ∨ e = Event.statusSet JobStatus.failed := by
  intro e he
  simp only [stageAnalyze] at he
  repeat' split at he
  all_goals simp_all

theorem stagePlan_events (o : Orch) (j : TransformationJob) (c : Nat) :
    ∀ e ∈ (stagePlan o j c).2.1,
      e = Event.statusSet JobStatus.planning
      ∨ e = Event.statusSet JobStatus.waiting_for_input
      ∨ e = Event.statusSet JobStatus.failed := by
  intro e he
  simp only [stagePlan] at he
  repeat' split at he
  all_goals simp_all
  all_goals tauto

theorem stageExecute_events_aux (n : Nat) :
    ∀ (o : Orch) (j : TransformationJob) (c : Nat),
      j.max_retries + 1 - j.retry_count ≤ n →
      ∀ e ∈ (stageExecute o j c).2.1,
        e = Event.statusSet JobStatus.executing ∨ e = Event.engineCalled
        ∨ e = Event.statusSet JobStatus.failed := by
  induction n with
  | zero =>
    intro o j c hn e he
    rw [stageExecute] at he
    dsimp only at he
    repeat' split at he
    all_goals first
      | (exfalso; omega)
      | (simp_all; tauto)
  | succ n ih =>
    intro o j c hn e he
    rw [stageExecute] at he
    dsimp only at he
    repeat' split at he
    all_goals first
      | (simp_all; tauto)
      | (rcases List.mem_append.mp he with h | h
         · exact Or.inl (by simpa using h)
         · exact ih o _ _ (by dsimp only; omega) e h)

theorem stageExecute_events (o : Orch) (j : TransformationJob) (c : Nat) :
    ∀ e ∈ (stageExecute o j c).2.1,
      e = Event.statusSet JobStatus.executing ∨ e = Event.engineCalled
      ∨ e = Event.statusSet JobStatus.failed :=
  stageExecute_events_aux (j.max_retries + 1 - j.retry_count) o j c (le_refl _)

theorem stageValidateOutput_events (o : Orch) (j : TransformationJob) (c : Nat) :
    ∀ e ∈ (stageValidateOutput o j c).2.1,
      e = Event.statusSet JobStatus.validating ∨ e = Event.validatorCalled
      ∨ e = Event.statusSet JobStatus.completed
      ∨ e = Event.statusSet JobStatus.failed := by
  intro e he
  simp only [stageValidateOutput] at he
  repeat' split at he
  all_goals simp_all
  all_goals tauto

theorem stageFallback_events (o : Orch) (j : TransformationJob) (c : Nat) :
    ∀ e ∈ (stageFallback o j c).2.1,
      e = Event.statusSet JobStatus.executing ∨ e = Event.codegenCalled
      ∨ e = Event.scriptExecuted ∨ e = Event.statusSet JobStatus.completed
      ∨ e = Event.statusSet JobStatus.failed := by
  intro e he
  simp only [stageFallback] at he
  repeat' split at he
  all_goals simp_all
  all_goals tauto

/-! ### Saved snapshots per stage -/

theorem savedDicts_append (l1 l2 : List Event) :
    savedDicts (l1 ++ l2) = savedDicts l1 ++ savedDicts l2 := by
  simp [savedDicts]

theorem savedDicts_nil : savedDicts [] = [] := rfl

theorem savedDicts_stageDetectTables (o : Orch) (j : TransformationJob) (c : Nat) :
    savedDicts (stageDetectTables o j c).2.1 = [] := by
  simp only [savedDicts]
  rw [List.filterMap_eq_nil_iff]
  intro e he
  rcases stageDetectTables_events o j c e he with h | h | h <;> simp [h]

theorem savedDicts_stageAnalyze (o : Orch) (j : TransformationJob) (c : Nat) :
    savedDicts (stageAnalyze o j c).2.1 = [] := by
  simp only [savedDicts]
  rw [List.filterMap_eq_nil_iff]
  intro e he
  rcases stageAnalyze_events o j c e he with h | h <;> simp [h]

theorem savedDicts_stagePlan (o : Orch) (j : TransformationJob) (c : Nat) :
    savedDicts (stagePlan o j c).2.1 = [] := by
  simp only [savedDicts]
  rw [List.filterMap_eq_nil_iff]
  intro e he
  rcases stagePlan_events o j c e he with h | h | h <;> simp [h]

theorem savedDicts_stageExecute (o : Orch) (j : TransformationJob) (c : Nat) :
    savedDicts (stageExecute o j c).2.1 = [] := by
  simp only [savedDicts]
  rw [List.filterMap_eq_nil_iff]
  intro e he
  rcases stageExecute_events o j c e he with h | h | h <;> simp [h]

theorem savedDicts_stageValidateOutput (o : Orch) (j : TransformationJob) (c : Nat) :
    savedDicts (stageValidateOutput o j c).2.1 = [] := by
  simp only [savedDicts]
  rw [List.filterMap_eq_nil_iff]
  intro e he
  rcases stageValidateOutput_events o j c e he with h | h | h | h <;> simp [h]

theorem savedDicts_stageFallback (o : Orch) (j : TransformationJob) (c : Nat) :
    savedDicts (stageFallback o j c).2.1 = [] := by
  simp only [savedDicts]
  rw [List.filterMap_eq_nil_iff]
  intro e he
  rcases stageFallback_events o j c e he with h | h | h | h | h <;> simp [h]

theorem savedDicts_saveJob (j : TransformationJob) (c : Nat) :
    savedDicts (saveJob j c).2.1 = [(saveJob j c).1.to_dict] := rfl

/-- C2 counterexample: when table detection raises, `run_job` mutates
the job to FAILED, returns, and writes no snapshot at all — the
persisted state does not equal the in-memory state at return. -/
theorem c2_save_counterexample :
    (runJob orchBase jobBase 0).1.status = JobStatus.failed
    ∧ (runJob orchBase jobBase 0).1 ≠ jobBase
    ∧ savedDicts (runJob orchBase jobBase 0).2.1 = [] :=
  ⟨rfl, by decide, rfl⟩

/-- C2 (amended): a `run_job` call persists either nothing at all
(every early return — FAILED stages, SELECTING_TABLE,
WAITING_FOR_INPUT, and both fallback outcomes — skips `_save_job`), or
exactly one snapshot, and in that case the snapshot is the returned
job's own `to_dict`; so persistence-on-return holds only on the single
fall-through path. -/
theorem c2_persistence_amended (o : Orch) (job : TransformationJob) (clk : Nat) :
    savedDicts (runJob o job clk).2.1 = []
    ∨ savedDicts (runJob o job clk).2.1 = [(runJob o job clk).1.to_dict] := by
  simp only [runJob]
  repeat' split
  all_goals
    simp only [savedDicts_append, savedDicts_stageDetectTables, savedDicts_stageAnalyze,
      savedDicts_stagePlan, savedDicts_stageExecute, savedDicts_stageValidateOutput,
      savedDicts_stageFallback, savedDicts_saveJob, savedDicts_nil, List.append_nil,
      List.nil_append]
  all_goals first
    | exact Or.inl trivial
    | exact Or.inl rfl
    | exact Or.inr trivial

/-! ### C8: the table matcher's score -/

theorem scoreAliasPartial_le (s : String) (cns : List String) :
    scoreAliasPartial s cns ≤ 19 / 20 := by
  simp only [scoreAliasPartial]
  split <;> norm_num

theorem scoreWithSimilarity_le (ext : Ext) (s t : String) (cns : List String) :
    scoreWithSimilarity ext s t cns ≤ 19 / 20 := by
  simp only [scoreWithSimilarity]
  refine max_le (scoreAliasPartial_le s cns) ?_
  have h1 := ext.seqRatio_le_one s t
  have h0 := ext.seqRatio_nonneg s t
  nlinarith

theorem scoreWithSemantic_le {b : ℚ} (hb : b ≤ 19 / 20) (tt : String) (sv : List String) :
    scoreWithSemantic b tt sv ≤ 19 / 20 := by
  simp only [scoreWithSemantic]
  repeat' split
  all_goals first
    | exact hb
    | exact max_le hb (by norm_num)

theorem scoreWithKeyword_le {b : ℚ} (hb : b ≤ 19 / 20) (s t : String) :
    scoreWithKeyword b s t ≤ 19 / 20 := by
  simp only [scoreWithKeyword]
  split
  · rename_i h
    refine max_le hb ?_
    have hne : ((extractKeywords s).dedup.filter
        (fun w => (extractKeywords t).dedup.contains w)) ≠ [] := by
      intro h0
      rw [h0] at h
      simp at h
    have hlen : 0 < ((extractKeywords s).dedup.filter
        (fun w => (extractKeywords t).dedup.contains w)).length := List.length_pos.mpr hne
    have h1 : ((extractKeywords s).dedup.filter
          (fun w => (extractKeywords t).dedup.contains w)).length
        ≤ (extractKeywords s).dedup.length := List.length_filter_le _ _
    have hsk : 0 < (extractKeywords s).dedup.length := lt_of_lt_of_le hlen h1
    have hmaxq : (0 : ℚ) < max ((extractKeywords s).dedup.length : ℚ)
        ((extractKeywords t).dedup.length : ℚ) :=
      lt_of_lt_of_le (by exact_mod_cast hsk) (le_max_left _ _)
    have hq : (((extractKeywords s).dedup.filter
          (fun w => (extractKeywords t).dedup.contains w)).length : ℚ)
        / max ((extractKeywords s).dedup.length : ℚ) ((extractKeywords t).dedup.length : ℚ)
        ≤ 1 := by
      rw [div_le_one hmaxq]
      exact le_trans (by exact_mod_cast h1) (le_max_left _ _)
    have hq0 : (0 : ℚ) ≤ (((extractKeywords s).dedup.filter
          (fun w => (extractKeywords t).dedup.contains w)).length : ℚ)
        / max ((extractKeywords s).dedup.length : ℚ) ((extractKeywords t).dedup.length : ℚ) := by
      positivity
    nlinarith
  · exact hb

theorem calcScore_le_of_norm_ne (ext : Ext) (s t : String) (cns : List String)
    (tt : String) (sv : List String)
    (h : ¬ normalizeColumnName s = normalizeColumnName t) :
    calculateColumnMatchScore ext s t cns tt sv ≤ 19 / 20 := by
  simp only [calculateColumnMatchScore]
  rw [if_neg h]
  split
  · norm_num
  · exact scoreWithKeyword_le (scoreWithSemantic_le (scoreWithSimilarity_le ext _ _ cns) tt sv) s t

theorem calcScore_exact (ext : Ext) (s t : String) (cns : List String) (tt : String)
    (sv : List String) (h : normalizeColumnName s = normalizeColumnName t) :
    calculateColumnMatchScore ext s t cns tt sv = 1 := by
  simp only [calculateColumnMatchScore]
  rw [if_pos h]

theorem bestStep_lt_one (ext : Ext) (table : DetectedTable) (claimed : List String)
    (s : String) (b : Option String × ℚ) (tc : String × TargetColumn)
    (hne : ¬ normalizeColumnName s = normalizeColumnName tc.1) (hb : b.2 < 1) :
    (bestStep ext table claimed s b tc).2 < 1 := by
  simp only [bestStep]
  split
  · exact hb
  · split
    · exact lt_of_le_of_lt (calcScore_le_of_norm_ne ext s tc.1 _ _ _ hne) (by norm_num)
    · exact hb

theorem bestStep_frozen (ext : Ext) (table : DetectedTable) (claimed : List String)
    (s : String) (b : Option String × ℚ) (tc : String × TargetColumn)
    (hne : ¬ normalizeColumnName s = normalizeColumnName tc.1) (hb : b.2 = 1) :
    bestStep ext table claimed s b tc = b := by
  simp only [bestStep]
  split
  · rfl
  · exact if_neg (by
      rw [hb]
      exact not_lt.mpr (le_trans (calcScore_le_of_norm_ne ext s tc.1 _ _ _ hne) (by norm_num)))

theorem foldl_bestStep_lt_one (ext : Ext) (table : DetectedTable) (claimed : List String)
    (s : String) :
    ∀ (l : List (String × TargetColumn)) (b : Option String × ℚ),
      (∀ p ∈ l, ¬ normalizeColumnName s = normalizeColumnName p.1) → b.2 < 1 →
      (l.foldl (bestStep ext table claimed s) b).2 < 1 := by
  intro l
  induction l with
  | nil => intro b _ hb; exact hb
  | cons tc rest ih =>
    intro b hl hb
    rw [List.foldl_cons]
    exact ih _ (fun p hp => hl p (List.mem_cons_of_mem _ hp))
      (bestStep_lt_one ext table claimed s b tc (hl tc (List.mem_cons_self _ _)) hb)

theorem foldl_bestStep_frozen (ext : Ext) (table : DetectedTable) (claimed : List String)
    (s : String) :
    ∀ (l : List (String × TargetColumn)) (b : Option String × ℚ),
      (∀ p ∈ l, ¬ normalizeColumnName s = normalizeColumnName p.1) → b.2 = 1 →
      l.foldl (bestStep ext table claimed s) b = b := by
  intro l
  induction l with
  | nil => intro b _ _; rfl
  | cons tc rest ih =>
    intro b hl hb
    rw [List.foldl_cons,
      bestStep_frozen ext table claimed s b tc (hl tc (List.mem_cons_self _ _)) hb]
    exact ih b (fun p hp => hl p (List.mem_cons_of_mem _ hp)) hb

/-- The inner loop claims exactly the normalized-name-identical target
when it is unclaimed and no other target collides. -/
theorem bestTargetFor_exact (ext : Ext) (table : DetectedTable)
    (pre post : List (String × TargetColumn)) (claimed : List String)
    (s : String) (col : TargetColumn)
    (hpre : ∀ p ∈ pre, ¬ normalizeColumnName s = normalizeColumnName p.1)
    (hpost : ∀ p ∈ post, ¬ normalizeColumnName s = normalizeColumnName p.1)
    (hcl : s ∉ claimed) :
    bestTargetFor ext table (pre ++ (s, col) :: post) claimed s = (Option.some s, 1) := by
  simp only [bestTargetFor, List.foldl_append, List.foldl_cons]
  have h1 : (pre.foldl (bestStep ext table claimed s) (Option.none, 0)).2 < 1 :=
    foldl_bestStep_lt_one ext table claimed s pre _ hpre (by norm_num)
  have h2 : bestStep ext table claimed s
      (pre.foldl (bestStep ext table claimed s) (Option.none, 0)) (s, col)
      = (Option.some s, 1) := by
    simp only [bestStep]
    rw [if_neg (fun hc => hcl (by simpa [List.contains] using hc))]
    rw [calcScore_exact ext s s _ _ _ rfl]
    rw [if_pos h1]
  rw [h2]
  exact foldl_bestStep_frozen ext table claimed s post _ hpost rfl

theorem targetColsDict_aux (cols : List TargetColumn) :
    ∀ acc : List (String × TargetColumn),
      (∀ c ∈ cols, ∀ kv ∈ acc, kv.1 ≠ c.name) →
      (cols.map (fun c => c.name)).Nodup →
      cols.foldl (fun acc col =>
        if acc.any (fun kv => kv.1 = col.name) then
          acc.map (fun kv => if kv.1 = col.name then (col.name, col) else kv)
        else acc ++ [(col.name, col)]) acc
      = acc ++ cols.map (fun c => (c.name, c)) := by
  induction cols with
  | nil => intro acc _ _; simp
  | cons col rest ih =>
    intro acc hdisj hnd
    rw [List.map_cons, List.nodup_cons] at hnd
    rw [List.foldl_cons]
    rw [if_neg ?hany]
    case hany =>
      intro hx
      rcases List.any_eq_true.mp hx with ⟨kv, hkv, hkv2⟩
      exact hdisj col (List.mem_cons_self _ _) kv hkv (by simpa using hkv2)
    rw [ih (acc ++ [(col.name, col)]) ?hd hnd.2]
    · simp
    case hd =>
      intro c hc kv hkv
      rcases List.mem_append.mp hkv with hkv | hkv
      · exact hdisj c (List.mem_cons_of_mem _ hc) kv hkv
      · rcases List.mem_singleton.mp hkv with rfl
        intro hEq
        have hEq' : col.name = c.name := hEq
        have hm : c.name ∈ rest.map (fun c => c.name) := List.mem_map_of_mem _ hc
        rw [← hEq'] at hm
        exact hnd.1 hm

/-- `{col.name: col for col in columns}` is a plain association list
when the column names are distinct. -/
theorem targetColsDict_eq_map (cols : List TargetColumn)
    (h : (cols.map (fun c => c.name)).Nodup) :
    targetColsDict cols = cols.map (fun c => (c.name, c)) := by
  have haux := targetColsDict_aux cols [] (by intro c _ kv hkv; simp at hkv) h
  simpa [targetColsDict] using haux

/-- The outer greedy loop, when every source column is the name of a
distinct collision-free target column, claims each source's name-sake
target. -/
theorem claimColumns_all_exact (ext : Ext) (table : DetectedTable)
    (cols : List TargetColumn)
    (hnorm : (cols.map (fun c => normalizeColumnName c.name)).Nodup) :
    ∀ (sources : List String) (m0 : List (String × String)) (cl0 : List String),
      sources.Nodup →
      (∀ s ∈ sources, s ≠ "" ∧ s ∉ cl0 ∧ ∃ col ∈ cols, col.name = s) →
      claimColumns ext table (cols.map (fun c => (c.name, c))) sources (m0, cl0)
        = (m0 ++ sources.map (fun s => (s, s)), cl0 ++ sources) := by
  intro sources
  induction sources with
  | nil => intro m0 cl0 _ _; simp [claimColumns]
  | cons s rest ih =>
    intro m0 cl0 hnd hall
    obtain ⟨hs0, hscl, col, hcolmem, hcolname⟩ := hall s (List.mem_cons_self _ _)
    obtain ⟨pre, post, hdecomp⟩ := List.append_of_mem hcolmem
    have hnorm' := hnorm
    rw [hdecomp, List.map_append, List.map_cons, List.nodup_append] at hnorm'
    obtain ⟨hn1, hn2, hn3⟩ := hnorm'
    have hnotpre : ∀ p ∈ pre.map (fun c => (c.name, c)),
        ¬ normalizeColumnName s = normalizeColumnName p.1 := by
      intro p hp hEq
      rcases List.mem_map.mp hp with ⟨c, hc, rfl⟩
      refine hn3 (List.mem_map_of_mem _ hc) ?_
      have hcc : normalizeColumnName c.name = normalizeColumnName col.name := by
        rw [hcolname]
        exact hEq.symm
      rw [hcc]
      exact List.mem_cons_self _ _
    have hnotpost : ∀ p ∈ post.map (fun c => (c.name, c)),
        ¬ normalizeColumnName s = normalizeColumnName p.1 := by
      intro p hp hEq
      rcases List.mem_map.mp hp with ⟨c, hc, rfl⟩
      refine (List.nodup_cons.mp hn2).1 ?_
      have hcc : normalizeColumnName col.name = normalizeColumnName c.name := by
        rw [hcolname]
        exact hEq
      rw [hcc]
      exact List.mem_map_of_mem _ hc
    have hbest : bestTargetFor ext table (cols.map (fun c => (c.name, c))) cl0 s
        = (Option.some s, 1) := by
      rw [hdecomp, List.map_append, List.map_cons, hcolname]
      exact bestTargetFor_exact ext table _ _ cl0 s col hnotpre hnotpost hscl
    simp only [claimColumns, hbest]
    rw [if_pos ⟨hs0, by norm_num⟩]
    rw [ih (m0 ++ [(s, s)]) (cl0 ++ [s]) (List.nodup_cons.mp hnd).2 ?hrest]
    · simp
    case hrest =>
      intro s' hs'
      obtain ⟨h1, h2, h3⟩ := hall s' (List.mem_cons_of_mem _ hs')
      refine ⟨h1, ?_, h3⟩
      intro hmem
      rcases List.mem_append.mp hmem with hmem | hmem
      · exact h2 hmem
      · rcases List.mem_singleton.mp hmem with rfl
        exact (List.nodup_cons.mp hnd).1 hs'

/-- C8 (amended): the claimed property holds once the schema is
collision-free. If the target columns have pairwise-distinct normalized
names, `required_columns` lists exactly the required-flagged column
names, and the table's column names are exactly the (nonempty,
non-empty-string) required names, then every required target column is
claimed (`unmatched_target_cols = []`), each source column maps to its
name-sake target, and the match score is at least 0.6. Without
collision-freedom the claim fails (see the counterexample). -/
theorem c8_score_amended (ext : Ext) (table : DetectedTable) (ts : TargetSchema)
    (hreq : ts.required_columns = (ts.columns.filter (fun c => c.required)).map (fun c => c.name))
    (hnorm : (ts.columns.map (fun c => normalizeColumnName c.name)).Nodup)
    (hcols : table.column_names = ts.required_columns)
    (hne : ts.required_columns ≠ [])
    (hnil : ("" : String) ∉ ts.required_columns) :
    (matchTableToSchema ext table ts).unmatched_target_cols = []
    ∧ (matchTableToSchema ext table ts).matched_columns
        = table.column_names.map (fun s => (s, s))
    ∧ 6 / 10 ≤ (matchTableToSchema ext table ts).match_score := by
  have hnames : (ts.columns.map (fun c => c.name)).Nodup := by
    refine List.Nodup.of_map normalizeColumnName ?_
    rw [List.map_map]
    simpa [Function.comp] using hnorm
  have hsrcnd : table.column_names.Nodup := by
    rw [hcols, hreq]
    exact List.Nodup.sublist (List.Sublist.map _ (List.filter_sublist _)) hnames
  have htcs := targetColsDict_eq_map ts.columns hnames
  have hclaim : claimColumns ext table (targetColsDict ts.columns) table.column_names ([], [])
      = (table.column_names.map (fun s => (s, s)), table.column_names) := by
    rw [htcs]
    have h := claimColumns_all_exact ext table ts.columns hnorm table.column_names [] []
      hsrcnd ?hall
    · simpa using h
    case hall =>
      intro s hs
      rw [hcols] at hs
      refine ⟨fun hEq => hnil (hEq ▸ hs), by simp, ?_⟩
      rw [hreq] at hs
      rcases List.mem_map.mp hs with ⟨col, hcolmem, hname⟩
      exact ⟨col, (List.mem_filter.mp hcolmem).1, hname⟩
  have hcontains : ∀ col ∈ ts.columns, col.required = true →
      table.column_names.contains col.name = true := by
    intro col hcol hr
    have hm : col.name ∈ table.column_names := by
      rw [hcols, hreq]
      exact List.mem_map_of_mem _ (List.mem_filter.mpr ⟨hcol, hr⟩)
    simpa [List.contains] using List.elem_eq_true_of_mem hm
  refine ⟨?_, ?_, ?_⟩
  · simp only [matchTableToSchema, hclaim]
    rw [List.map_eq_nil_iff, List.filter_eq_nil_iff]
    intro col hcol hcl
    simp only [decide_eq_true_eq] at hcl
    exact hcl.1 (hcontains col hcol hcl.2)
  · simp only [matchTableToSchema, hclaim]
  · simp only [matchTableToSchema, hclaim]
    have hfil : ts.columns.filter (fun col => col.required ∧ table.column_names.contains col.name)
        = ts.columns.filter (fun c => c.required) := by
      refine List.filter_congr ?_
      intro col hcol
      by_cases hr : col.required = true
      · have hm2 : col.name ∈ table.column_names := by
          rw [hcols, hreq]
          exact List.mem_map_of_mem _ (List.mem_filter.mpr ⟨hcol, hr⟩)
        simp [hr, hm2]
      · rw [Bool.not_eq_true] at hr
        simp [hr]
    rw [hfil]
    have hn0 : 0 < ts.required_columns.length := List.length_pos.mpr hne
    have hlen1 : ts.required_columns.length = (ts.columns.filter (fun c => c.required)).length := by
      rw [hreq, List.length_map]
    have hlen2 : (table.column_names.map (fun s => (s, s))).length
        = ts.required_columns.length := by
      rw [List.length_map, hcols]
    rw [if_pos hn0]
    have hdiv1 : (((ts.columns.filter (fun c => c.required)).length : ℚ)
        / (ts.required_columns.length : ℚ)) = 1 := by
      rw [← hlen1]
      exact div_self (by exact_mod_cast hn0.ne')
    rw [hdiv1]
    by_cases hop : 0 < (ts.columns.length : Int) - (ts.required_columns.length : Int)
    · rw [if_pos hop]
      have hnum : ((table.column_names.map (fun s => (s, s))).length : ℚ)
          - ((ts.columns.filter (fun c => c.required)).length : ℚ) = 0 := by
        rw [hlen2, hlen1, sub_self]
      rw [hnum, zero_div]
      norm_num
    · rw [if_neg hop]
      norm_num

theorem c8_score_amended_witness :
    6 / 10 ≤ (matchTableToSchema extDefault c8wTable c8wSchema).match_score :=
  (c8_score_amended extDefault c8wTable c8wSchema (by decide) (by decide) (by decide)
    (by decide) (by decide)).2.2

/-- C8 counterexample: for the schema whose optional column "Name"
normalizes identically to the required column "name", a table whose
column names are exactly the required names has its only source column
greedily claimed by the optional "Name" (dict order, strict
improvement), so `required_score` is 0, the required column stays
unmatched, and the score is 0.4 < 0.6 — refuting the claimed
"required_score = 1.0 regardless of optional-column coverage". -/
theorem c8_required_score_counterexample :
    c8Table.column_names = c8Schema.required_columns
    ∧ c8Schema.required_columns
        = (c8Schema.columns.filter (fun c => c.required)).map (fun c => c.name)
    ∧ (matchTableToSchema extDefault c8Table c8Schema).matched_columns = [("name", "Name")]
    ∧ (matchTableToSchema extDefault c8Table c8Schema).unmatched_target_cols = ["name"]
    ∧ (matchTableToSchema extDefault c8Table c8Schema).match_score < 6 / 10 := by
  have hbest : bestTargetFor extDefault c8Table (targetColsDict c8Schema.columns) [] "name"
      = (Option.some "Name", 1) := rfl
  have hclaim : claimColumns extDefault c8Table (targetColsDict c8Schema.columns)
      ["name"] ([], []) = ([("name", "Name")], ["Name"]) := by
    simp only [claimColumns, hbest]
    rw [if_pos ⟨by decide, by norm_num⟩]
    rfl
  have hcn : c8Table.column_names = ["name"] := rfl
  refine ⟨rfl, by decide, ?_, ?_, ?_⟩
  · simp only [matchTableToSchema]
    rw [hcn, hclaim]
  · simp only [matchTableToSchema]
    rw [hcn, hclaim]
    dsimp only
    decide
  · simp only [matchTableToSchema]
    rw [hcn, hclaim]
    dsimp only
    have h1 : c8Schema.columns.filter
        (fun col => col.required ∧ (["Name"] : List String).contains col.name) = [] := by
      decide
    rw [h1]
    have h2 : c8Schema.required_columns = ["name"] := rfl
    rw [h2]
    have h3 : c8Schema.columns.length = 2 := rfl
    rw [h3]
    norm_num

/-! ### C3: low confidence and planning failure go to the fallback -/

theorem engineCalled_not_stageAnalyze (o : Orch) (j : TransformationJob) (c : Nat) :
    Event.engineCalled ∉ (stageAnalyze o j c).2.1 := by
  intro h
  rcases stageAnalyze_events o j c _ h with h' | h' <;> simp at h'

theorem engineCalled_not_stagePlan (o : Orch) (j : TransformationJob) (c : Nat) :
    Event.engineCalled ∉ (stagePlan o j c).2.1 := by
  intro h
  rcases stagePlan_events o j c _ h with h' | h' | h' <;> simp at h'

theorem engineCalled_not_stageFallback (o : Orch) (j : TransformationJob) (c : Nat) :
    Event.engineCalled ∉ (stageFallback o j c).2.1 := by
  intro h
  rcases stageFallback_events o j c _ h with h' | h' | h' | h' | h' <;> simp at h'

theorem validating_not_stageAnalyze (o : Orch) (j : TransformationJob) (c : Nat) :
    Event.statusSet JobStatus.validating ∉ (stageAnalyze o j c).2.1 := by
  intro h
  rcases stageAnalyze_events o j c _ h with h' | h' <;> simp at h'

theorem validating_not_stagePlan (o : Orch) (j : TransformationJob) (c : Nat) :
    Event.statusSet JobStatus.validating ∉ (stagePlan o j c).2.1 := by
  intro h
  rcases stagePlan_events o j c _ h with h' | h' | h' <;> simp at h'

theorem validating_not_stageFallback (o : Orch) (j : TransformationJob) (c : Nat) :
    Event.statusSet JobStatus.validating ∉ (stageFallback o j c).2.1 := by
  intro h
  rcases stageFallback_events o j c _ h with h' | h' | h' | h' | h' <;> simp at h'

theorem stageFallback_trace_head (o : Orch) (j : TransformationJob) (c : Nat) :
    ∃ l, (stageFallback o j c).2.1 = Event.statusSet JobStatus.executing :: l := by
  simp only [stageFallback]
  repeat' split
  all_goals exact ⟨_, rfl⟩

/-- Every FAILED outcome of the fallback stage carries an error message
prefixed "Fallback failed: "; every other outcome is COMPLETED. -/
theorem stageFallback_outcome (o : Orch) (j : TransformationJob) (c : Nat) :
    ((stageFallback o j c).1.status = JobStatus.failed
      ∧ ∃ m, (stageFallback o j c).1.error_message
          = Option.some ("Fallback failed: " ++ m))
    ∨ (stageFallback o j c).1.status = JobStatus.completed := by
  simp only [stageFallback]
  repeat' split
  all_goals first
    | exact Or.inr rfl
    | exact Or.inl ⟨rfl, _, rfl⟩

/-- C3: when planning fails, or succeeds with confidence below 0.5 on a
non-suspending plan, `run_job` goes straight to the code-generation
fallback: the run is exactly analyze ++ plan ++ fallback, the engine is
never invoked, no validation stage is entered, the next stage
transition after planning is the fallback's EXECUTING, and a FAILED end
state can only be a fallback failure (message prefixed
"Fallback failed: "). -/
theorem c3_low_confidence_fallback (o : Orch) (job : TransformationJob) (clk : Nat)
    (r1 r2 : TransformationJob × List Event × Nat)
    (hr1 : stageAnalyze o job clk = r1)
    (hr2 : stagePlan o r1.1 r1.2.2 = r2)
    (hmta : job.multi_table_analysis.isSome = true)
    (hs1 : job.status ≠ JobStatus.failed)
    (hs2 : job.status ≠ JobStatus.selecting_table)
    (ha : r1.1.status ≠ JobStatus.failed)
    (hcase : r2.1.status = JobStatus.failed
      ∨ (r2.1.status ≠ JobStatus.waiting_for_input
         ∧ ∃ p, r2.1.transformation_plan = Option.some p ∧ p.confidence_score < 1 / 2)) :
    runJob o job clk =
      ((stageFallback o r2.1 r2.2.2).1,
       r1.2.1 ++ r2.2.1 ++ (stageFallback o r2.1 r2.2.2).2.1,
       (stageFallback o r2.1 r2.2.2).2.2)
    ∧ Event.engineCalled ∉ (runJob o job clk).2.1
    ∧ Event.statusSet JobStatus.validating ∉ (runJob o job clk).2.1
    ∧ (∃ l, (stageFallback o r2.1 r2.2.2).2.1
        = Event.statusSet JobStatus.executing :: l)
    ∧ ((runJob o job clk).1.status = JobStatus.failed →
        ∃ m, (runJob o job clk).1.error_message
          = Option.some ("Fallback failed: " ++ m)) := by
  subst hr1
  subst hr2
  have hrun : runJob o job clk =
      ((stageFallback o (stagePlan o (stageAnalyze o job clk).1
          (stageAnalyze o job clk).2.2).1
          (stagePlan o (stageAnalyze o job clk).1 (stageAnalyze o job clk).2.2).2.2).1,
       (stageAnalyze o job clk).2.1
         ++ (stagePlan o (stageAnalyze o job clk).1 (stageAnalyze o job clk).2.2).2.1
         ++ (stageFallback o (stagePlan o (stageAnalyze o job clk).1
              (stageAnalyze o job clk).2.2).1
              (stagePlan o (stageAnalyze o job clk).1
                (stageAnalyze o job clk).2.2).2.2).2.1,
       (stageFallback o (stagePlan o (stageAnalyze o job clk).1
          (stageAnalyze o job clk).2.2).1
          (stagePlan o (stageAnalyze o job clk).1
            (stageAnalyze o job clk).2.2).2.2).2.2) := by
    simp only [runJob, hmta, if_true]
    rw [if_neg (fun h => h.elim hs1 hs2)]
    rw [if_neg ha]
    by_cases hf : (stagePlan o (stageAnalyze o job clk).1
        (stageAnalyze o job clk).2.2).1.status = JobStatus.failed
    · rw [if_neg (by simp [hf]), if_pos hf]
      simp
    · rcases hcase with h | ⟨hwait, p, hp, hconf⟩
      · exact absurd h hf
      · rw [if_neg hwait, if_neg hf, if_pos (by rw [hp]; exact decide_eq_true hconf)]
        simp
  refine ⟨hrun, ?_, ?_, stageFallback_trace_head o _ _, ?_⟩
  · rw [hrun]
    intro h
    rcases List.mem_append.mp h with h | h
    · rcases List.mem_append.mp h with h | h
      · exact engineCalled_not_stageAnalyze o job clk h
      · exact engineCalled_not_stagePlan o _ _ h
    · exact engineCalled_not_stageFallback o _ _ h
  · rw [hrun]
    intro h
    rcases List.mem_append.mp h with h | h
    · rcases List.mem_append.mp h with h | h
      · exact validating_not_stageAnalyze o job clk h
      · exact validating_not_stagePlan o _ _ h
    · exact validating_not_stageFallback o _ _ h
  · rw [hrun]
    intro hfail
    rcases stageFallback_outcome o (stagePlan o (stageAnalyze o job clk).1
        (stageAnalyze o job clk).2.2).1
        (stagePlan o (stageAnalyze o job clk).1 (stageAnalyze o job clk).2.2).2.2 with
      ⟨_, m, hm⟩ | hcomp
    · exact ⟨m, hm⟩
    · rw [hcomp] at hfail
      exact absurd hfail (by simp)

theorem c3_low_confidence_fallback_witness :
    Event.engineCalled ∉ (runJob c3Orch c3Job 0).2.1 :=
  (c3_low_confidence_fallback c3Orch c3Job 0 _ _ rfl rfl (by decide) (by decide)
    (by decide) (by decide)
    (Or.inr ⟨by decide, c3Plan, rfl, by norm_num [c3Plan]⟩)).2.1

/-- C9 counterexample: `run_job` on a COMPLETED job re-enters the
pipeline (here: table detection, which fails) and mutates the job;
terminal jobs are not read-only under `run_job`. -/
theorem c9_terminal_mutation_counterexample :
    c9Job.status = JobStatus.completed ∧ (runJob orchBase c9Job 0).1 ≠ c9Job :=
  ⟨rfl, by decide⟩

/-- C9 (amended): the resumption entry points `answer_question` and
`select_table` are read-only on terminal jobs (their status guards
reject anything that is not WAITING_FOR_INPUT / SELECTING_TABLE), but
`run_job` has no such terminal guard. -/
theorem c9_terminal_readonly_amended (o : Orch) (job : TransformationJob)
    (qi : Nat) (answer selection : String) (clk : Nat)
    (hterm : job.status = JobStatus.completed ∨ job.status = JobStatus.failed) :
    answerQuestion o job qi answer clk = (job, [], clk)
    ∧ selectTable o job selection clk = (job, [], clk) := by
  have h1 : job.status ≠ JobStatus.selecting_table := by
    rcases hterm with h | h <;> simp [h]
  have h2 : job.status ≠ JobStatus.waiting_for_input := by
    rcases hterm with h | h <;> simp [h]
  constructor
  · simp only [answerQuestion]
    rw [if_neg h1, if_pos h2]
  · simp only [selectTable]
    rw [if_pos h1]

theorem c9_terminal_readonly_amended_witness :
    answerQuestion orchBase c9Job 0 "x" 0 = (c9Job, [], 0)
    ∧ selectTable orchBase c9Job "1" 0 = (c9Job, [], 0) :=
  c9_terminal_readonly_amended orchBase c9Job 0 "x" "1" 0 (Or.inl rfl)

end DTE
